import Mathlib

/-!
The service, mapper and controller layers of go-restful-api.

A shallow embedding of `service/product_service_impl.go`, `helper/model.go`,
`controller/product_controller_impl.go`, `controller/employee_controller_impl.go`,
`app/router.go` and the request and response types of `model/web` with their
`validate` tags.

* A Go `error` interface value is `Option GoError` (`none` is `nil`).
* A Go multi-value return `(T, error)` is the pair `T × error`; both components
  are always present, as in Go.
* The repository is an interface: it is embedded as a record of transition
  functions over an arbitrary store type `σ`, so every implementation (the gorm
  one, a gomock double) is an instance.  Every call the service makes through
  the interface is appended to a call log, which is what "is invoked" and
  "is never invoked" are stated on.
* `float64` fields are only ever copied by this layer; they are carried as their
  IEEE-754 bit pattern.
* A Go slice is a `Slice`, which keeps the nil slice apart from an empty one.
-/

set_option autoImplicit false

/-! ## Errors -/

/-- Concrete error values that can sit behind a Go `error` interface in this program. -/
inductive GoError where
  /-- The sentinel `gorm.ErrRecordNotFound`. -/
  | recordNotFound : GoError
  /-- A value of type `exception.NotFoundError` carrying its message. -/
  | notFound (msg : String) : GoError
  /-- A value of type `validator.ValidationErrors`. -/
  | validation (msg : String) : GoError
  /-- A value built by `errors.New(msg)`. -/
  | plain (msg : String) : GoError
  /-- A value built by `fmt.Errorf("msg: %w", inner)`: its `Unwrap()` is `inner`. -/
  | wrapped (msg : String) (inner : GoError) : GoError
  deriving DecidableEq, Repr

/-- A Go `error` interface value; `none` is `nil`. -/
abbrev error := Option GoError

/-- The loop of `errors.is`: compare, then follow `Unwrap()` until it ends. -/
def GoError.chainHas : GoError → GoError → Bool
  | GoError.wrapped msg inner, target =>
      decide (GoError.wrapped msg inner = target) || GoError.chainHas inner target
  | e, target => decide (e = target)

/-- Go `errors.Is(err, target)`. -/
def errors.Is (err target : error) : Bool :=
  match err, target with
  | some e, some t => GoError.chainHas e t
  | e, t => decide (e = t)

/-- The sentinel `gorm.ErrRecordNotFound` as an `error` value. -/
def gorm.ErrRecordNotFound : error := some GoError.recordNotFound

/-- Modelled from the spec: package `exception` is absent from the sources.
`NewNotFoundError(msg)` builds the `NotFoundError` value carrying `msg`
("`NotFoundError` naming the entity type"). -/
def exception.NewNotFoundError (msg : String) : error := some (GoError.notFound msg)

/-- The type assertion `err.(exception.NotFoundError)` succeeds. -/
def exception.isNotFoundError : error → Bool
  | some (GoError.notFound _) => true
  | _ => false

/-- The type assertion `err.(validator.ValidationErrors)` succeeds. -/
def isValidationError : error → Bool
  | some (GoError.validation _) => true
  | _ => false

/-! ## Slices -/

/-- A Go slice value: `nil` is the nil slice, `of xs` a non-nil slice holding `xs`
(possibly none). Both `nil` and `of []` have length 0. -/
inductive Slice (α : Type) where
  | nil : Slice α
  | of (elems : List α) : Slice α
  deriving DecidableEq, Repr

/-- The elements a `range` loop over the slice visits, in order. -/
def Slice.elems {α : Type} : Slice α → List α
  | Slice.nil => []
  | Slice.of xs => xs

/-- Go `len(s)`. -/
def Slice.len {α : Type} (s : Slice α) : Nat := s.elems.length

/-- Go `append(s, x)`: always a non-nil slice. -/
def Slice.append {α : Type} (s : Slice α) (x : α) : Slice α := Slice.of (s.elems ++ [x])

/-! ## Data model -/

/-- A Go `float64`, carried as its IEEE-754 bit pattern; the zero value is `+0`. -/
structure Float64 where
  bits : Nat
  deriving DecidableEq, Repr

/-- The `float64` zero value. -/
def Float64.zero : Float64 := ⟨0⟩

/-- The request-scoped `context.Context`; the service only passes it on. -/
structure Context where
  tag : Nat
  deriving DecidableEq, Repr

/-- Modelled from the spec: package `model/domain` is absent from the sources.
`domain.Product` has the identity `ProductID` and the attributes of the spec's
data model table, which are also the fields `ToProductResponse` reads. -/
structure domain.Product where
  ProductID : String
  Name : String
  Description : String
  Price : Float64
  StockQty : Int
  Category : String
  SKU : String
  TaxRate : Float64
  deriving DecidableEq, Repr

/-- The zero value `domain.Product{}`. -/
def domain.Product.zero : domain.Product :=
  { ProductID := "", Name := "", Description := "", Price := Float64.zero, StockQty := 0,
    Category := "", SKU := "", TaxRate := Float64.zero }

/-- The type `web.ProductCreateRequest`. -/
structure web.ProductCreateRequest where
  Name : String
  Description : String
  Price : Float64
  StockQty : Int
  Category : String
  SKU : String
  TaxRate : Float64
  deriving DecidableEq, Repr

/-- The type `web.ProductResponse`. -/
structure web.ProductResponse where
  ProductID : String
  Name : String
  Description : String
  Price : Float64
  StockQty : Int
  Category : String
  SKU : String
  TaxRate : Float64
  deriving DecidableEq, Repr

/-- The type `web.ProductUpdateRequest`. -/
structure web.ProductUpdateRequest where
  ProductID : String
  Name : String
  Description : String
  Price : Float64
  StockQty : Int
  Category : String
  SKU : String
  TaxRate : Float64
  deriving DecidableEq, Repr

/-- The zero value `web.ProductResponse{}`. -/
def web.ProductResponse.zero : web.ProductResponse :=
  { ProductID := "", Name := "", Description := "", Price := Float64.zero, StockQty := 0,
    Category := "", SKU := "", TaxRate := Float64.zero }

/-- Modelled from the spec: package `model/domain` is absent from the sources.
`domain.Category` has the identity `Id` and the attribute `Name`. -/
structure domain.Category where
  Id : String
  Name : String
  deriving DecidableEq, Repr

/-- Modelled from the spec: the file declaring `web.CategoryResponse` is absent from the
sources; it has the two fields `ToCategoryResponse` fills. -/
structure web.CategoryResponse where
  Id : String
  Name : String
  deriving DecidableEq, Repr

/-- Modelled from the spec: package `model/domain` is absent from the sources.
`domain.Employee` has the identity `EmployeeID` and the attributes of the spec's data
model table. -/
structure domain.Employee where
  EmployeeID : String
  Name : String
  Role : String
  Email : String
  Phone : String
  DateHired : String
  deriving DecidableEq, Repr

/-- The type `web.EmployeeCreateRequest`. -/
structure web.EmployeeCreateRequest where
  Name : String
  Role : String
  Email : String
  Phone : String
  DateHired : String
  deriving DecidableEq, Repr

/-- The type `web.EmployeeResponse`. -/
structure web.EmployeeResponse where
  EmployeeID : String
  Name : String
  Role : String
  Email : String
  Phone : String
  DateHired : String
  deriving DecidableEq, Repr

/-- The type `web.EmployeeUpdateRequest`. -/
structure web.EmployeeUpdateRequest where
  EmployeeID : String
  Name : String
  Role : String
  Email : String
  Phone : String
  DateHired : String
  deriving DecidableEq, Repr

/-- Modelled from the spec: package `model/domain` is absent from the sources.
`domain.Customer` has the identity `CustomerID` and the attributes of the spec's data
model table. -/
structure domain.Customer where
  CustomerID : String
  Name : String
  Email : String
  Phone : String
  Address : String
  LoyaltyPts : Int
  deriving DecidableEq, Repr

/-- The type `web.CustomerResponse`. -/
structure web.CustomerResponse where
  CustomerID : String
  Name : String
  Email : String
  Phone : String
  Address : String
  LoyaltyPts : Int
  deriving DecidableEq, Repr

/-! ## Mapper (`helper/model.go`) -/

/-- The function `helper.ToCategoryResponse`. -/
def helper.ToCategoryResponse (category : domain.Category) : web.CategoryResponse :=
  { Id := category.Id
    Name := category.Name }

/-- The function `helper.ToCategoryResponses`: a nil slice, appended to in a range loop. -/
def helper.ToCategoryResponses (categories : Slice domain.Category) :
    Slice web.CategoryResponse :=
  categories.elems.foldl
    (fun categoryResponses category =>
      categoryResponses.append (helper.ToCategoryResponse category))
    Slice.nil

/-- The function `helper.ToEmployeeResponse`. -/
def helper.ToEmployeeResponse (employee : domain.Employee) : web.EmployeeResponse :=
  { EmployeeID := employee.EmployeeID
    Name := employee.Name
    Role := employee.Role
    Email := employee.Email
    Phone := employee.Phone
    DateHired := employee.DateHired }

/-- The function `helper.ToEmployeeResponses`: a nil slice, appended to in a range loop. -/
def helper.ToEmployeeResponses (employees : Slice domain.Employee) :
    Slice web.EmployeeResponse :=
  employees.elems.foldl
    (fun employeeResponses employee =>
      employeeResponses.append (helper.ToEmployeeResponse employee))
    Slice.nil

/-- The function `helper.ToCustomerResponse`. -/
def helper.ToCustomerResponse (customer : domain.Customer) : web.CustomerResponse :=
  { CustomerID := customer.CustomerID
    Name := customer.Name
    Email := customer.Email
    Phone := customer.Phone
    Address := customer.Address
    LoyaltyPts := customer.LoyaltyPts }

/-- The function `helper.ToCustomerResponses`: a nil slice, appended to in a range loop. -/
def helper.ToCustomerResponses (customers : Slice domain.Customer) :
    Slice web.CustomerResponse :=
  customers.elems.foldl
    (fun customerResponses customer =>
      customerResponses.append (helper.ToCustomerResponse customer))
    Slice.nil

/-- The function `helper.ToProductResponse`. -/
def helper.ToProductResponse (product : domain.Product) : web.ProductResponse :=
  { ProductID := product.ProductID
    Name := product.Name
    Description := product.Description
    Price := product.Price
    StockQty := product.StockQty
    Category := product.Category
    SKU := product.SKU
    TaxRate := product.TaxRate }

/-- The function `helper.ToProductResponses`: a nil slice, appended to in a range loop. -/
def helper.ToProductResponses (products : Slice domain.Product) :
    Slice web.ProductResponse :=
  products.elems.foldl
    (fun productResponses product =>
      productResponses.append (helper.ToProductResponse product))
    Slice.nil

/-! ## Repository interface and call log -/

/-- One call made through the `repository.ProductRepository` interface, with its argument. -/
inductive RepoCall where
  | Save (product : domain.Product) : RepoCall
  | Update (product : domain.Product) : RepoCall
  | FindById (productId : String) : RepoCall
  | FindAll : RepoCall
  | Delete (product : domain.Product) : RepoCall
  deriving DecidableEq, Repr

/-- The interface `repository.ProductRepository`, over an arbitrary store `σ`:
each method returns its Go results and the store after the call. -/
structure repository.ProductRepository (σ : Type) where
  Save : Context → domain.Product → σ → (domain.Product × error) × σ
  Update : Context → domain.Product → σ → (domain.Product × error) × σ
  FindById : Context → String → σ → (domain.Product × error) × σ
  FindAll : Context → σ → (Slice domain.Product × error) × σ
  Delete : Context → domain.Product → σ → error × σ

/-- The store behind the repository together with the log of calls made so far. -/
structure Run (σ : Type) where
  store : σ
  calls : List RepoCall

/-- The struct `ProductServiceImpl`. -/
structure service.ProductServiceImpl (σ : Type) where
  ProductRepository : repository.ProductRepository σ

/-- The constructor `NewProductService`. -/
def service.NewProductService {σ : Type} (productRepository : repository.ProductRepository σ) :
    service.ProductServiceImpl σ :=
  { ProductRepository := productRepository }

/-- The call `service.ProductRepository.Save(ctx, product)`, logged. -/
def service.ProductServiceImpl.callSave {σ : Type} (service : service.ProductServiceImpl σ)
    (ctx : Context) (product : domain.Product) (w : Run σ) : (domain.Product × error) × Run σ :=
  ((service.ProductRepository.Save ctx product w.store).1,
   { store := (service.ProductRepository.Save ctx product w.store).2
     calls := w.calls ++ [RepoCall.Save product] })

/-- The call `service.ProductRepository.Update(ctx, product)`, logged. -/
def service.ProductServiceImpl.callUpdate {σ : Type} (service : service.ProductServiceImpl σ)
    (ctx : Context) (product : domain.Product) (w : Run σ) : (domain.Product × error) × Run σ :=
  ((service.ProductRepository.Update ctx product w.store).1,
   { store := (service.ProductRepository.Update ctx product w.store).2
     calls := w.calls ++ [RepoCall.Update product] })

/-- The call `service.ProductRepository.FindById(ctx, productId)`, logged. -/
def service.ProductServiceImpl.callFindById {σ : Type} (service : service.ProductServiceImpl σ)
    (ctx : Context) (productId : String) (w : Run σ) : (domain.Product × error) × Run σ :=
  ((service.ProductRepository.FindById ctx productId w.store).1,
   { store := (service.ProductRepository.FindById ctx productId w.store).2
     calls := w.calls ++ [RepoCall.FindById productId] })

/-- The call `service.ProductRepository.Delete(ctx, product)`, logged. -/
def service.ProductServiceImpl.callDelete {σ : Type} (service : service.ProductServiceImpl σ)
    (ctx : Context) (product : domain.Product) (w : Run σ) : error × Run σ :=
  ((service.ProductRepository.Delete ctx product w.store).1,
   { store := (service.ProductRepository.Delete ctx product w.store).2
     calls := w.calls ++ [RepoCall.Delete product] })

/-- The call `service.ProductRepository.FindAll(ctx)`, logged. -/
def service.ProductServiceImpl.callFindAll {σ : Type} (service : service.ProductServiceImpl σ)
    (ctx : Context) (w : Run σ) : (Slice domain.Product × error) × Run σ :=
  ((service.ProductRepository.FindAll ctx w.store).1,
   { store := (service.ProductRepository.FindAll ctx w.store).2
     calls := w.calls ++ [RepoCall.FindAll] })

/-! ## Service (`service/product_service_impl.go`) -/

/-- The method `ProductServiceImpl.Create`. -/
def service.ProductServiceImpl.Create {σ : Type} (service : service.ProductServiceImpl σ)
    (ctx : Context) (request : web.ProductCreateRequest) (w : Run σ) :
    (web.ProductResponse × error) × Run σ :=
  let product : domain.Product :=
    { ProductID := ""
      Name := request.Name
      Description := request.Description
      Price := request.Price
      StockQty := request.StockQty
      Category := request.Category
      SKU := request.SKU
      TaxRate := request.TaxRate }
  let saved := service.callSave ctx product w
  let newProduct := saved.1.1
  let err := saved.1.2
  if err ≠ none then
    ((web.ProductResponse.zero, err), saved.2)
  else
    ((helper.ToProductResponse newProduct, none), saved.2)

/-- The method `ProductServiceImpl.Update`. -/
def service.ProductServiceImpl.Update {σ : Type} (service : service.ProductServiceImpl σ)
    (ctx : Context) (request : web.ProductUpdateRequest) (w : Run σ) :
    (web.ProductResponse × error) × Run σ :=
  let found := service.callFindById ctx request.ProductID w
  let product := found.1.1
  let err := found.1.2
  if errors.Is err gorm.ErrRecordNotFound then
    ((web.ProductResponse.zero, exception.NewNotFoundError "Product not found"), found.2)
  else if err ≠ none then
    ((web.ProductResponse.zero, err), found.2)
  else
    let product : domain.Product :=
      { product with
        Name := request.Name
        Description := request.Description
        Price := request.Price
        StockQty := request.StockQty
        Category := request.Category
        SKU := request.SKU
        TaxRate := request.TaxRate }
    let updated := service.callUpdate ctx product found.2
    let updatedProduct := updated.1.1
    let err := updated.1.2
    if err ≠ none then
      ((web.ProductResponse.zero, err), updated.2)
    else
      ((helper.ToProductResponse updatedProduct, none), updated.2)

/-- The method `ProductServiceImpl.Delete`. -/
def service.ProductServiceImpl.Delete {σ : Type} (service : service.ProductServiceImpl σ)
    (ctx : Context) (productId : String) (w : Run σ) : error × Run σ :=
  let found := service.callFindById ctx productId w
  let product := found.1.1
  let err := found.1.2
  if errors.Is err gorm.ErrRecordNotFound then
    (exception.NewNotFoundError "Product not found", found.2)
  else if err ≠ none then
    (err, found.2)
  else
    service.callDelete ctx product found.2

/-- The method `ProductServiceImpl.FindById`. -/
def service.ProductServiceImpl.FindById {σ : Type} (service : service.ProductServiceImpl σ)
    (ctx : Context) (productId : String) (w : Run σ) : (web.ProductResponse × error) × Run σ :=
  let found := service.callFindById ctx productId w
  let product := found.1.1
  let err := found.1.2
  if errors.Is err gorm.ErrRecordNotFound then
    ((web.ProductResponse.zero, exception.NewNotFoundError "Product not found"), found.2)
  else if err ≠ none then
    ((web.ProductResponse.zero, err), found.2)
  else
    ((helper.ToProductResponse product, none), found.2)

/-- The method `ProductServiceImpl.FindAll`. -/
def service.ProductServiceImpl.FindAll {σ : Type} (service : service.ProductServiceImpl σ)
    (ctx : Context) (w : Run σ) : (Slice web.ProductResponse × error) × Run σ :=
  let found := service.callFindAll ctx w
  let products := found.1.1
  let err := found.1.2
  if err ≠ none then
    ((Slice.nil, err), found.2)
  else
    ((helper.ToProductResponses products, none), found.2)

/-! ## HTTP layer (`controller/product_controller_impl.go`,
`controller/employee_controller_impl.go`)

A handler receives a `*fiber.Ctx` and answers through `c.Status(code).JSON(envelope)`.
The context is embedded by what the handlers read from it: the outcome of `BodyParser`
on the freshly allocated request struct, the path parameters and the request context.
The answer is the status code and the envelope handed to `JSON`. The service behind a
controller is an interface, embedded as a record of transition functions over an
arbitrary state; every call made through it is logged with its arguments. -/

/-- The method `Error()` of the error values: the message text. For the gorm sentinel it
is gorm's text; for `exception.NotFoundError` it is the message it was built with. -/
def GoError.Error : GoError → String
  | GoError.recordNotFound => "record not found"
  | GoError.notFound msg => msg
  | GoError.validation msg => msg
  | GoError.plain msg => msg
  | GoError.wrapped msg _ => msg

/-- The constant `fiber.StatusOK`. -/
def fiber.StatusOK : Int := 200

/-- The constant `fiber.StatusCreated`. -/
def fiber.StatusCreated : Int := 201

/-- The constant `fiber.StatusBadRequest`. -/
def fiber.StatusBadRequest : Int := 400

/-- The constant `fiber.StatusNotFound`. -/
def fiber.StatusNotFound : Int := 404

/-- The constant `fiber.StatusInternalServerError`. -/
def fiber.StatusInternalServerError : Int := 500

/-- The values the controllers put into the `Data interface{}` field of the envelope;
`absent` is the field left unset. -/
inductive web.Data where
  | absent : web.Data
  | text (s : String) : web.Data
  | product (r : web.ProductResponse) : web.Data
  | products (rs : Slice web.ProductResponse) : web.Data
  | employee (r : web.EmployeeResponse) : web.Data
  | employees (rs : Slice web.EmployeeResponse) : web.Data
  deriving DecidableEq, Repr

/-- Modelled from the spec: the file declaring `web.WebResponse` is absent from the
sources. The envelope is `{ "code": int, "status": string, "data": any or omitted }`. -/
structure web.WebResponse where
  Code : Int
  Status : String
  Data : web.Data
  deriving DecidableEq, Repr

/-- What a handler reads from its `*fiber.Ctx`; `β` is the request struct `BodyParser`
decodes into. `BodyParser out` gives the struct after decoding and the decoding error;
`Params key` is the empty string for a parameter the route does not bind. -/
structure fiber.Ctx (β : Type) where
  BodyParser : β → β × error
  Params : String → String
  Context : Context

/-- The answer written by `c.Status(status).JSON(body)`. -/
structure Reply where
  status : Int
  body : web.WebResponse
  deriving DecidableEq, Repr

/-- The chain `c.Status(status).JSON(body)`. -/
def fiber.Ctx.StatusJSON {β : Type} (_c : fiber.Ctx β) (status : Int) (body : web.WebResponse) :
    Reply :=
  { status := status, body := body }

/-- The zero value `web.ProductCreateRequest{}` that `new` allocates. -/
def web.ProductCreateRequest.zero : web.ProductCreateRequest :=
  { Name := "", Description := "", Price := Float64.zero, StockQty := 0, Category := "",
    SKU := "", TaxRate := Float64.zero }

/-- The zero value `web.ProductUpdateRequest{}` that `new` allocates. -/
def web.ProductUpdateRequest.zero : web.ProductUpdateRequest :=
  { ProductID := "", Name := "", Description := "", Price := Float64.zero, StockQty := 0,
    Category := "", SKU := "", TaxRate := Float64.zero }

/-- The zero value `web.EmployeeCreateRequest{}` that `new` allocates. -/
def web.EmployeeCreateRequest.zero : web.EmployeeCreateRequest :=
  { Name := "", Role := "", Email := "", Phone := "", DateHired := "" }

/-- The zero value `web.EmployeeUpdateRequest{}` that `new` allocates. -/
def web.EmployeeUpdateRequest.zero : web.EmployeeUpdateRequest :=
  { EmployeeID := "", Name := "", Role := "", Email := "", Phone := "", DateHired := "" }

/-- One call made through a service interface, with its argument; `γ` and `υ` are the
create and update request types. -/
inductive ServiceCall (γ υ : Type) where
  | Create (request : γ) : ServiceCall γ υ
  | Update (request : υ) : ServiceCall γ υ
  | Delete (id : String) : ServiceCall γ υ
  | FindById (id : String) : ServiceCall γ υ
  | FindAll : ServiceCall γ υ
  deriving DecidableEq, Repr

/-- The state behind a service together with the log of calls made to it so far. -/
structure Served (σ γ υ : Type) where
  state : σ
  calls : List (ServiceCall γ υ)

/-- Modelled from the spec: the file declaring the interface `service.ProductService` is
absent from the sources. Its five methods are the operations of the spec's service
contract, with the signatures of `ProductServiceImpl`, over an arbitrary state `σ`. -/
structure service.ProductService (σ : Type) where
  Create : Context → web.ProductCreateRequest → σ → (web.ProductResponse × error) × σ
  Update : Context → web.ProductUpdateRequest → σ → (web.ProductResponse × error) × σ
  Delete : Context → String → σ → error × σ
  FindById : Context → String → σ → (web.ProductResponse × error) × σ
  FindAll : Context → σ → (Slice web.ProductResponse × error) × σ

/-- The value `ProductServiceImpl` as a `service.ProductService`: its state is the
repository's store with the repository call log. -/
def service.ProductServiceImpl.asService {σ : Type} (impl : service.ProductServiceImpl σ) :
    service.ProductService (Run σ) :=
  { Create := impl.Create
    Update := impl.Update
    Delete := impl.Delete
    FindById := impl.FindById
    FindAll := impl.FindAll }

/-- The state of a product service with the log of calls made to it. -/
abbrev ProductServed (σ : Type) := Served σ web.ProductCreateRequest web.ProductUpdateRequest

/-- The struct `ProductControllerImpl`. -/
structure controller.ProductControllerImpl (σ : Type) where
  ProductService : service.ProductService σ

/-- The constructor `NewProductController`. -/
def controller.NewProductController {σ : Type} (productService : service.ProductService σ) :
    controller.ProductControllerImpl σ :=
  { ProductService := productService }

/-- The method `ProductControllerImpl.Create`. -/
def controller.ProductControllerImpl.Create {σ : Type}
    (controller : controller.ProductControllerImpl σ) (c : fiber.Ctx web.ProductCreateRequest)
    (s : ProductServed σ) : Reply × ProductServed σ :=
  match c.BodyParser web.ProductCreateRequest.zero with
  | (_, some err) =>
    (c.StatusJSON fiber.StatusBadRequest
      { Code := fiber.StatusBadRequest, Status := "Bad Request", Data := web.Data.text err.Error },
     s)
  | (productCreateRequest, none) =>
    let called := controller.ProductService.Create c.Context productCreateRequest s.state
    let served : ProductServed σ :=
      { state := called.2, calls := s.calls ++ [ServiceCall.Create productCreateRequest] }
    match called.1 with
    | (_, some err) =>
      (c.StatusJSON fiber.StatusInternalServerError
        { Code := fiber.StatusInternalServerError, Status := "Internal Server Error",
          Data := web.Data.text err.Error },
       served)
    | (productResponse, none) =>
      (c.StatusJSON fiber.StatusCreated
        { Code := fiber.StatusCreated, Status := "Created",
          Data := web.Data.product productResponse },
       served)

/-- The method `ProductControllerImpl.Update`. -/
def controller.ProductControllerImpl.Update {σ : Type}
    (controller : controller.ProductControllerImpl σ) (c : fiber.Ctx web.ProductUpdateRequest)
    (s : ProductServed σ) : Reply × ProductServed σ :=
  match c.BodyParser web.ProductUpdateRequest.zero with
  | (_, some err) =>
    (c.StatusJSON fiber.StatusBadRequest
      { Code := fiber.StatusBadRequest, Status := "Bad Request", Data := web.Data.text err.Error },
     s)
  | (parsed, none) =>
    let productID := c.Params "productId"
    if productID = "" then
      (c.StatusJSON fiber.StatusBadRequest
        { Code := fiber.StatusBadRequest, Status := "Invalid Product ID",
          Data := web.Data.text "Product ID tidak boleh kosong" },
       s)
    else
      let productUpdateRequest : web.ProductUpdateRequest := { parsed with ProductID := productID }
      let called := controller.ProductService.Update c.Context productUpdateRequest s.state
      let served : ProductServed σ :=
        { state := called.2, calls := s.calls ++ [ServiceCall.Update productUpdateRequest] }
      match called.1 with
      | (_, some err) =>
        if exception.isNotFoundError (some err) then
          (c.StatusJSON fiber.StatusNotFound
            { Code := fiber.StatusNotFound, Status := "Not Found",
              Data := web.Data.text err.Error },
           served)
        else
          (c.StatusJSON fiber.StatusInternalServerError
            { Code := fiber.StatusInternalServerError, Status := "Internal Server Error",
              Data := web.Data.text err.Error },
           served)
      | (productResponse, none) =>
        (c.StatusJSON fiber.StatusOK
          { Code := fiber.StatusOK, Status := "OK", Data := web.Data.product productResponse },
         served)

/-- The method `ProductControllerImpl.Delete`. -/
def controller.ProductControllerImpl.Delete {σ β : Type}
    (controller : controller.ProductControllerImpl σ) (c : fiber.Ctx β)
    (s : ProductServed σ) : Reply × ProductServed σ :=
  let productID := c.Params "productId"
  if productID = "" then
    (c.StatusJSON fiber.StatusBadRequest
      { Code := fiber.StatusBadRequest, Status := "Invalid Product ID",
        Data := web.Data.text "Product ID tidak boleh kosong" },
     s)
  else
    let called := controller.ProductService.Delete c.Context productID s.state
    let served : ProductServed σ :=
      { state := called.2, calls := s.calls ++ [ServiceCall.Delete productID] }
    match called.1 with
    | some err =>
      if exception.isNotFoundError (some err) then
        (c.StatusJSON fiber.StatusNotFound
          { Code := fiber.StatusNotFound, Status := "Not Found",
            Data := web.Data.text err.Error },
         served)
      else
        (c.StatusJSON fiber.StatusInternalServerError
          { Code := fiber.StatusInternalServerError, Status := "Internal Server Error",
            Data := web.Data.text err.Error },
         served)
    | none =>
      (c.StatusJSON fiber.StatusOK
        { Code := fiber.StatusOK, Status := "Deleted Successfully", Data := web.Data.absent },
       served)

/-- The method `ProductControllerImpl.FindById`. -/
def controller.ProductControllerImpl.FindById {σ β : Type}
    (controller : controller.ProductControllerImpl σ) (c : fiber.Ctx β)
    (s : ProductServed σ) : Reply × ProductServed σ :=
  let productID := c.Params "productId"
  if productID = "" then
    (c.StatusJSON fiber.StatusBadRequest
      { Code := fiber.StatusBadRequest, Status := "Invalid Product ID",
        Data := web.Data.text "Product ID tidak boleh kosong" },
     s)
  else
    let called := controller.ProductService.FindById c.Context productID s.state
    let served : ProductServed σ :=
      { state := called.2, calls := s.calls ++ [ServiceCall.FindById productID] }
    match called.1 with
    | (_, some err) =>
      if exception.isNotFoundError (some err) then
        (c.StatusJSON fiber.StatusNotFound
          { Code := fiber.StatusNotFound, Status := "Not Found",
            Data := web.Data.text err.Error },
         served)
      else
        (c.StatusJSON fiber.StatusInternalServerError
          { Code := fiber.StatusInternalServerError, Status := "Internal Server Error",
            Data := web.Data.text err.Error },
         served)
    | (productResponse, none) =>
      (c.StatusJSON fiber.StatusOK
        { Code := fiber.StatusOK, Status := "OK", Data := web.Data.product productResponse },
       served)

/-- The method `ProductControllerImpl.FindAll`. -/
def controller.ProductControllerImpl.FindAll {σ β : Type}
    (controller : controller.ProductControllerImpl σ) (c : fiber.Ctx β)
    (s : ProductServed σ) : Reply × ProductServed σ :=
  let called := controller.ProductService.FindAll c.Context s.state
  let served : ProductServed σ :=
    { state := called.2, calls := s.calls ++ [ServiceCall.FindAll] }
  match called.1 with
  | (_, some err) =>
    (c.StatusJSON fiber.StatusInternalServerError
      { Code := fiber.StatusInternalServerError, Status := "Internal Server Error",
        Data := web.Data.text err.Error },
     served)
  | (productResponses, none) =>
    (c.StatusJSON fiber.StatusOK
      { Code := fiber.StatusOK, Status := "OK", Data := web.Data.products productResponses },
     served)

/-- Modelled from the spec: the file declaring the interface `service.EmployeeService` is
absent from the sources. Its five methods are the operations of the spec's service
contract, with the signatures the controller calls them with, over an arbitrary state
`σ`. -/
structure service.EmployeeService (σ : Type) where
  Create : Context → web.EmployeeCreateRequest → σ → (web.EmployeeResponse × error) × σ
  Update : Context → web.EmployeeUpdateRequest → σ → (web.EmployeeResponse × error) × σ
  Delete : Context → String → σ → error × σ
  FindById : Context → String → σ → (web.EmployeeResponse × error) × σ
  FindAll : Context → σ → (Slice web.EmployeeResponse × error) × σ

/-- The state of a employee service with the log of calls made to it. -/
abbrev EmployeeServed (σ : Type) := Served σ web.EmployeeCreateRequest web.EmployeeUpdateRequest

/-- The struct `EmployeeControllerImpl`. -/
structure controller.EmployeeControllerImpl (σ : Type) where
  EmployeeService : service.EmployeeService σ

/-- The constructor `NewEmployeeController`. -/
def controller.NewEmployeeController {σ : Type} (employeeService : service.EmployeeService σ) :
    controller.EmployeeControllerImpl σ :=
  { EmployeeService := employeeService }

/-- The method `EmployeeControllerImpl.Create`. -/
def controller.EmployeeControllerImpl.Create {σ : Type}
    (controller : controller.EmployeeControllerImpl σ) (c : fiber.Ctx web.EmployeeCreateRequest)
    (s : EmployeeServed σ) : Reply × EmployeeServed σ :=
  match c.BodyParser web.EmployeeCreateRequest.zero with
  | (_, some err) =>
    (c.StatusJSON fiber.StatusBadRequest
      { Code := fiber.StatusBadRequest, Status := "Bad Request", Data := web.Data.text err.Error },
     s)
  | (employeeCreateRequest, none) =>
    let called := controller.EmployeeService.Create c.Context employeeCreateRequest s.state
    let served : EmployeeServed σ :=
      { state := called.2, calls := s.calls ++ [ServiceCall.Create employeeCreateRequest] }
    match called.1 with
    | (_, some err) =>
      (c.StatusJSON fiber.StatusInternalServerError
        { Code := fiber.StatusInternalServerError, Status := "Internal Server Error",
          Data := web.Data.text err.Error },
       served)
    | (employeeResponse, none) =>
      (c.StatusJSON fiber.StatusCreated
        { Code := fiber.StatusCreated, Status := "Created",
          Data := web.Data.employee employeeResponse },
       served)

/-- The method `EmployeeControllerImpl.Update`. -/
def controller.EmployeeControllerImpl.Update {σ : Type}
    (controller : controller.EmployeeControllerImpl σ) (c : fiber.Ctx web.EmployeeUpdateRequest)
    (s : EmployeeServed σ) : Reply × EmployeeServed σ :=
  match c.BodyParser web.EmployeeUpdateRequest.zero with
  | (_, some err) =>
    (c.StatusJSON fiber.StatusBadRequest
      { Code := fiber.StatusBadRequest, Status := "Bad Request", Data := web.Data.text err.Error },
     s)
  | (parsed, none) =>
    let employeeID := c.Params "employeeId"
    if employeeID = "" then
      (c.StatusJSON fiber.StatusBadRequest
        { Code := fiber.StatusBadRequest, Status := "Invalid Employee ID",
          Data := web.Data.text "Employee ID tidak boleh kosong" },
       s)
    else
      let employeeUpdateRequest : web.EmployeeUpdateRequest := { parsed with EmployeeID := employeeID }
      let called := controller.EmployeeService.Update c.Context employeeUpdateRequest s.state
      let served : EmployeeServed σ :=
        { state := called.2, calls := s.calls ++ [ServiceCall.Update employeeUpdateRequest] }
      match called.1 with
      | (_, some err) =>
        if exception.isNotFoundError (some err) then
          (c.StatusJSON fiber.StatusNotFound
            { Code := fiber.StatusNotFound, Status := "Not Found",
              Data := web.Data.text err.Error },
           served)
        else
          (c.StatusJSON fiber.StatusInternalServerError
            { Code := fiber.StatusInternalServerError, Status := "Internal Server Error",
              Data := web.Data.text err.Error },
           served)
      | (employeeResponse, none) =>
        (c.StatusJSON fiber.StatusOK
          { Code := fiber.StatusOK, Status := "OK", Data := web.Data.employee employeeResponse },
         served)

/-- The method `EmployeeControllerImpl.Delete`. -/
def controller.EmployeeControllerImpl.Delete {σ β : Type}
    (controller : controller.EmployeeControllerImpl σ) (c : fiber.Ctx β)
    (s : EmployeeServed σ) : Reply × EmployeeServed σ :=
  let employeeID := c.Params "employeeId"
  if employeeID = "" then
    (c.StatusJSON fiber.StatusBadRequest
      { Code := fiber.StatusBadRequest, Status := "Invalid Employee ID",
        Data := web.Data.text "Employee ID tidak boleh kosong" },
     s)
  else
    let called := controller.EmployeeService.Delete c.Context employeeID s.state
    let served : EmployeeServed σ :=
      { state := called.2, calls := s.calls ++ [ServiceCall.Delete employeeID] }
    match called.1 with
    | some err =>
      if exception.isNotFoundError (some err) then
        (c.StatusJSON fiber.StatusNotFound
          { Code := fiber.StatusNotFound, Status := "Not Found",
            Data := web.Data.text err.Error },
         served)
      else
        (c.StatusJSON fiber.StatusInternalServerError
          { Code := fiber.StatusInternalServerError, Status := "Internal Server Error",
            Data := web.Data.text err.Error },
         served)
    | none =>
      (c.StatusJSON fiber.StatusOK
        { Code := fiber.StatusOK, Status := "Deleted Successfully", Data := web.Data.absent },
       served)

/-- The method `EmployeeControllerImpl.FindById`. -/
def controller.EmployeeControllerImpl.FindById {σ β : Type}
    (controller : controller.EmployeeControllerImpl σ) (c : fiber.Ctx β)
    (s : EmployeeServed σ) : Reply × EmployeeServed σ :=
  let employeeID := c.Params "employeeId"
  if employeeID = "" then
    (c.StatusJSON fiber.StatusBadRequest
      { Code := fiber.StatusBadRequest, Status := "Invalid Employee ID",
        Data := web.Data.text "Employee ID tidak boleh kosong" },
     s)
  else
    let called := controller.EmployeeService.FindById c.Context employeeID s.state
    let served : EmployeeServed σ :=
      { state := called.2, calls := s.calls ++ [ServiceCall.FindById employeeID] }
    match called.1 with
    | (_, some err) =>
      if exception.isNotFoundError (some err) then
        (c.StatusJSON fiber.StatusNotFound
          { Code := fiber.StatusNotFound, Status := "Not Found",
            Data := web.Data.text err.Error },
         served)
      else
        (c.StatusJSON fiber.StatusInternalServerError
          { Code := fiber.StatusInternalServerError, Status := "Internal Server Error",
            Data := web.Data.text err.Error },
         served)
    | (employeeResponse, none) =>
      (c.StatusJSON fiber.StatusOK
        { Code := fiber.StatusOK, Status := "OK", Data := web.Data.employee employeeResponse },
       served)

/-- The method `EmployeeControllerImpl.FindAll`. -/
def controller.EmployeeControllerImpl.FindAll {σ β : Type}
    (controller : controller.EmployeeControllerImpl σ) (c : fiber.Ctx β)
    (s : EmployeeServed σ) : Reply × EmployeeServed σ :=
  let called := controller.EmployeeService.FindAll c.Context s.state
  let served : EmployeeServed σ :=
    { state := called.2, calls := s.calls ++ [ServiceCall.FindAll] }
  match called.1 with
  | (_, some err) =>
    (c.StatusJSON fiber.StatusInternalServerError
      { Code := fiber.StatusInternalServerError, Status := "Internal Server Error",
        Data := web.Data.text err.Error },
     served)
  | (employeeResponses, none) =>
    (c.StatusJSON fiber.StatusOK
      { Code := fiber.StatusOK, Status := "OK", Data := web.Data.employees employeeResponses },
     served)

/-! ## Declared validation constraints (`model/web/*_request_response.go`)

The request structs carry their constraints as `validate` struct tags, a comma-separated
list of rules of go-playground/validator. The tags are embedded as written. -/

/-- A struct field together with the text of its `validate` tag. -/
structure web.FieldTag where
  field : String
  validate : String
  deriving DecidableEq, Repr

/-- The rules of a tag: its text cut at every comma. -/
def web.splitRules : List Char → List (List Char)
  | [] => [[]]
  | c :: cs =>
    if c = Char.ofNat 44 then [] :: web.splitRules cs
    else
      match web.splitRules cs with
      | [] => [[c]]
      | r :: rs => (c :: r) :: rs

/-- Whether the tags declare `rule` on `field`. -/
def web.declares (tags : List web.FieldTag) (field rule : String) : Bool :=
  tags.any (fun t => decide (t.field = field)
    && decide (rule.toList ∈ web.splitRules t.validate.toList))

/-- Whether the struct has a field of that name. -/
def web.hasField (tags : List web.FieldTag) (field : String) : Bool :=
  tags.any (fun t => decide (t.field = field))

/-- The `validate` tags declared on the fields of `web.CustomerCreateRequest`, in declaration order. -/
def web.CustomerCreateRequest.validateTags : List web.FieldTag :=
  [ { field := "Name", validate := "required,min=1,max=100" },
    { field := "Email", validate := "required,email" },
    { field := "Phone", validate := "required,max=20" },
    { field := "Address", validate := "max=255" },
    { field := "LoyaltyPts", validate := "min=0" } ]

/-- The `validate` tags declared on the fields of `web.CustomerUpdateRequest`, in declaration order. -/
def web.CustomerUpdateRequest.validateTags : List web.FieldTag :=
  [ { field := "CustomerID", validate := "required" },
    { field := "Name", validate := "required,min=1,max=100" },
    { field := "Email", validate := "required,email" },
    { field := "Phone", validate := "required,max=20" },
    { field := "Address", validate := "max=255" },
    { field := "LoyaltyPts", validate := "min=0" } ]

/-- The `validate` tags declared on the fields of `web.EmployeeCreateRequest`, in declaration order. -/
def web.EmployeeCreateRequest.validateTags : List web.FieldTag :=
  [ { field := "Name", validate := "required,min=1,max=100" },
    { field := "Role", validate := "required,max=50" },
    { field := "Email", validate := "required,email" },
    { field := "Phone", validate := "required,max=20" },
    { field := "DateHired", validate := "required" } ]

/-- The `validate` tags declared on the fields of `web.EmployeeUpdateRequest`, in declaration order. -/
def web.EmployeeUpdateRequest.validateTags : List web.FieldTag :=
  [ { field := "EmployeeID", validate := "required" },
    { field := "Name", validate := "required,min=1,max=100" },
    { field := "Role", validate := "required,max=50" },
    { field := "Email", validate := "required,email" },
    { field := "Phone", validate := "required,max=20" },
    { field := "DateHired", validate := "required" } ]

/-- The `validate` tags declared on the fields of `web.ProductCreateRequest`, in declaration order. -/
def web.ProductCreateRequest.validateTags : List web.FieldTag :=
  [ { field := "Name", validate := "required,min=1,max=100" },
    { field := "Description", validate := "max=500" },
    { field := "Price", validate := "required,min=0" },
    { field := "StockQty", validate := "required,min=0" },
    { field := "Category", validate := "required" },
    { field := "SKU", validate := "required,max=50" },
    { field := "TaxRate", validate := "min=0" } ]

/-- The `validate` tags declared on the fields of `web.ProductUpdateRequest`, in declaration order. -/
def web.ProductUpdateRequest.validateTags : List web.FieldTag :=
  [ { field := "ProductID", validate := "required" },
    { field := "Name", validate := "required,max=100,min=1" },
    { field := "Description", validate := "max=500" },
    { field := "Price", validate := "required,min=0" },
    { field := "StockQty", validate := "required,min=0" },
    { field := "Category", validate := "required" },
    { field := "SKU", validate := "required,max=50" },
    { field := "TaxRate", validate := "min=0" } ]

/-- The constraint table of the spec, in validator rules: "required" for required,
"min=a" and "max=b" for a length or a numeric bound, "email" for the email format. -/
def constraintTable : List (String × List String) :=
  [ ("Name", ["required", "min=1", "max=100"]),
    ("Email", ["required", "email"]),
    ("Phone", ["required", "max=20"]),
    ("Address", ["max=255"]),
    ("LoyaltyPts", ["min=0"]),
    ("Role", ["required", "max=50"]),
    ("DateHired", ["required"]),
    ("Price", ["required", "min=0"]),
    ("StockQty", ["required", "min=0"]),
    ("Category", ["required"]),
    ("SKU", ["required", "max=50"]),
    ("TaxRate", ["min=0"]) ]

/-- The attributes the spec's data model gives Customer, Employee and Product that the
constraint table has a row for, with the tags of the entity's Create and Update request
type and the name of its identity field. -/
def constrainedEntities :
    List (List String × List web.FieldTag × List web.FieldTag × String) :=
  [ (["Name", "Email", "Phone", "Address", "LoyaltyPts"],
      web.CustomerCreateRequest.validateTags, web.CustomerUpdateRequest.validateTags,
      "CustomerID"),
    (["Name", "Role", "Email", "Phone", "DateHired"],
      web.EmployeeCreateRequest.validateTags, web.EmployeeUpdateRequest.validateTags,
      "EmployeeID"),
    (["Name", "Price", "StockQty", "Category", "SKU", "TaxRate"],
      web.ProductCreateRequest.validateTags, web.ProductUpdateRequest.validateTags,
      "ProductID") ]

/-! ## Router (`app/router.go`) -/

/-- The five actions of a controller. -/
inductive ControllerAction where
  | FindAll : ControllerAction
  | FindById : ControllerAction
  | Create : ControllerAction
  | Update : ControllerAction
  | Delete : ControllerAction
  deriving DecidableEq, Repr

/-- One registration `group.Method(path, handler)`: the group's path, the HTTP
method, the route pattern, and the controller and action it is bound to. -/
structure Route where
  group : String
  method : String
  path : String
  controller : String
  action : ControllerAction
  deriving DecidableEq, Repr

/-- The function `NewRouter`: the twenty registrations it makes, in order, under the group
"/api" that carries the auth middleware. -/
def app.NewRouter : List Route :=
  [
    { group := "/api/categories", method := "GET", path := "/", controller := "categoryController", action := ControllerAction.FindAll },
    { group := "/api/categories", method := "GET", path := "/:categoryId", controller := "categoryController", action := ControllerAction.FindById },
    { group := "/api/categories", method := "POST", path := "/", controller := "categoryController", action := ControllerAction.Create },
    { group := "/api/categories", method := "PUT", path := "/:categoryId", controller := "categoryController", action := ControllerAction.Update },
    { group := "/api/categories", method := "DELETE", path := "/:categoryId", controller := "categoryController", action := ControllerAction.Delete },
    { group := "/api/customers", method := "GET", path := "/", controller := "customerController", action := ControllerAction.FindAll },
    { group := "/api/customers", method := "GET", path := "/:customerId", controller := "customerController", action := ControllerAction.FindById },
    { group := "/api/customers", method := "POST", path := "/", controller := "customerController", action := ControllerAction.Create },
    { group := "/api/customers", method := "PUT", path := "/:customerId", controller := "customerController", action := ControllerAction.Update },
    { group := "/api/customers", method := "DELETE", path := "/:customerId", controller := "customerController", action := ControllerAction.Delete },
    { group := "/api/employees", method := "GET", path := "/", controller := "employeeController", action := ControllerAction.FindAll },
    { group := "/api/employees", method := "GET", path := "/:employeeId", controller := "employeeController", action := ControllerAction.FindById },
    { group := "/api/employees", method := "POST", path := "/", controller := "employeeController", action := ControllerAction.Create },
    { group := "/api/employees", method := "PUT", path := "/:employeeId", controller := "employeeController", action := ControllerAction.Update },
    { group := "/api/employees", method := "DELETE", path := "/:employeeId", controller := "employeeController", action := ControllerAction.Delete },
    { group := "/api/products", method := "GET", path := "/", controller := "productController", action := ControllerAction.FindAll },
    { group := "/api/products", method := "GET", path := "/:productId", controller := "productController", action := ControllerAction.FindById },
    { group := "/api/products", method := "POST", path := "/", controller := "productController", action := ControllerAction.Create },
    { group := "/api/products", method := "PUT", path := "/:productId", controller := "productController", action := ControllerAction.Update },
    { group := "/api/products", method := "DELETE", path := "/:productId", controller := "productController", action := ControllerAction.Delete } ]

/-- The parameter a fiber route pattern of the shape "/:name" binds: `name`. A pattern
of another shape, such as "/", binds none. -/
def fiber.paramName (path : String) : Option String :=
  match path.toList with
  | [] => none
  | [_] => none
  | a :: b :: name =>
    if a = Char.ofNat 47 ∧ b = Char.ofNat 58 then some (String.mk name) else none

/-- The context fiber hands to the handler of a route registered with the pattern `path`
when the request's id segment is `segment`: `Params` gives the segment for the name the
pattern binds and the empty string for every other name. -/
def fiber.routedCtx {β : Type} (path segment : String) (parser : β → β × error)
    (ctx : Context) : fiber.Ctx β :=
  { BodyParser := parser
    Params := fun key => if fiber.paramName path = some key then segment else ""
    Context := ctx }

/-! ## Test doubles

The gomock doubles of the tests return canned values (`EXPECT().Return(...)`);
`mockRepository` is the same thing as an instance of the interface. -/

/-- A repository double with canned results; its store is trivial. -/
def mockRepository (save update find : domain.Product × error)
    (findAll : Slice domain.Product × error) (delete : error) :
    repository.ProductRepository Unit :=
  { Save := fun _ _ s => (save, s)
    Update := fun _ _ s => (update, s)
    FindById := fun _ _ s => (find, s)
    FindAll := fun _ s => (findAll, s)
    Delete := fun _ _ s => (delete, s) }

/-- The product `domain.Product{ProductID: "1", Name: "Laptop"}` of the tests. -/
def laptop : domain.Product := { domain.Product.zero with ProductID := "1", Name := "Laptop" }

/-- A fresh run: trivial store, empty call log. -/
def Run.fresh : Run Unit := { store := (), calls := [] }

/-- A double whose lookup misses with the gorm sentinel, as the gorm repository does. -/
def missingRepository : repository.ProductRepository Unit :=
  mockRepository (laptop, none) (laptop, none) (domain.Product.zero, gorm.ErrRecordNotFound)
    (Slice.of [], none) none

/-- A double on which every call succeeds and returns `laptop`. -/
def laptopRepository : repository.ProductRepository Unit :=
  mockRepository (laptop, none) (laptop, none) (laptop, none) (Slice.of [laptop], none) none

/-- The update request of `TestUpdateProduct`, with identity "1". -/
def laptopUpdate : web.ProductUpdateRequest :=
  { ProductID := "1", Name := "Laptop", Description := "Gaming Laptop", Price := ⟨4714314674282168320⟩,
    StockQty := 100, Category := "Gaming Laptop", SKU := "4", TaxRate := Float64.zero }

/-- A double whose lookup fails with an error that does not wrap the gorm sentinel,
as the doubles of the "not found" tests do (`errors.New("not found")`). -/
def failingRepository : repository.ProductRepository Unit :=
  mockRepository (laptop, none) (laptop, none)
    (domain.Product.zero, some (GoError.plain "not found")) (Slice.of [], none) none

/-- A double whose lookup fails with a value of type `exception.NotFoundError` of its own. -/
def typedMissRepository : repository.ProductRepository Unit :=
  mockRepository (laptop, none) (laptop, none)
    (domain.Product.zero, some (GoError.notFound "no such row")) (Slice.of [], none) none

/-- The body `{}` posted to `/api/products/`: every field has its zero value, so the
`required` tags on Name, Price, StockQty, Category and SKU are all violated. -/
def emptyCreate : web.ProductCreateRequest :=
  { Name := "", Description := "", Price := Float64.zero, StockQty := 0, Category := "",
    SKU := "", TaxRate := Float64.zero }

/-- The body `{}` put to `/api/products/1`: the identity is the path parameter, every
other field has its zero value, so the `required` tag on Name is violated. -/
def emptyUpdate : web.ProductUpdateRequest :=
  { ProductID := "1", Name := "", Description := "", Price := Float64.zero, StockQty := 0,
    Category := "", SKU := "", TaxRate := Float64.zero }

/-- An update request whose ProductID is empty, violating its `required` tag. -/
def noIdUpdate : web.ProductUpdateRequest := { laptopUpdate with ProductID := "" }

/-- The create request of `TestCreateProduct`. -/
def laptopCreate : web.ProductCreateRequest :=
  { Name := "Laptop", Description := "Gaming Laptop", Price := ⟨4714314674282168320⟩, StockQty := 100,
    Category := "Gaming Laptop", SKU := "4", TaxRate := Float64.zero }

/-- The `required` tag of go-playground/validator on a string field: the value is not
the zero value `""`. -/
def web.required (field : String) : Bool := decide (field ≠ "")

/-- The `required` tags declared on the string fields of `ProductCreateRequest`. -/
def web.ProductCreateRequest.requiredStrings (r : web.ProductCreateRequest) : Bool :=
  web.required r.Name && web.required r.Category && web.required r.SKU

/-- The `required` tags declared on the string fields of `ProductUpdateRequest`. -/
def web.ProductUpdateRequest.requiredStrings (r : web.ProductUpdateRequest) : Bool :=
  web.required r.ProductID && web.required r.Name && web.required r.Category
    && web.required r.SKU

/-- The entity `laptop` after every mutable field is overwritten from `laptopUpdate`. -/
def gamingLaptop : domain.Product :=
  { ProductID := "1", Name := "Laptop", Description := "Gaming Laptop", Price := ⟨4714314674282168320⟩,
    StockQty := 100, Category := "Gaming Laptop", SKU := "4", TaxRate := Float64.zero }

/-- A double whose Save fails, as in `TestCreateProduct/repository error`. -/
def brokenSaveRepository : repository.ProductRepository Unit :=
  mockRepository (domain.Product.zero, some (GoError.plain "repository error")) (laptop, none)
    (laptop, none) (Slice.of [laptop], none) none

/-- A double whose lookup succeeds and whose Update fails, as in
`TestUpdateProduct/repository error`. -/
def brokenUpdateRepository : repository.ProductRepository Unit :=
  mockRepository (laptop, none) (domain.Product.zero, some (GoError.plain "repository error"))
    (laptop, none) (Slice.of [laptop], none) none

/-- A double whose lookup succeeds and whose Delete fails, as in
`TestDeleteProduct/repository error on delete`. -/
def brokenDeleteRepository : repository.ProductRepository Unit :=
  mockRepository (laptop, none) (laptop, none) (laptop, none) (Slice.of [laptop], none)
    (some (GoError.plain "failed to delete product"))

/-- A double whose FindAll returns the nil slice and no error. -/
def nilRepository : repository.ProductRepository Unit :=
  mockRepository (laptop, none) (laptop, none) (laptop, none) (Slice.nil, none) none

/-- The identity the in-memory double assigns to the next saved entity: one more "p"
than there are stored entities. -/
def memoryNextId (store : List domain.Product) : String :=
  String.mk (List.replicate (store.length + 1) (Char.ofNat 112))

/-- An in-memory double of the repository: Save assigns an identity and stores the
entity, FindById misses with the gorm sentinel. -/
def memoryRepository : repository.ProductRepository (List domain.Product) :=
  { Save := fun _ product store =>
      (({ product with ProductID := memoryNextId store }, none),
        store ++ [{ product with ProductID := memoryNextId store }])
    Update := fun _ product store =>
      ((product, none),
        store.map (fun p => if p.ProductID = product.ProductID then product else p))
    FindById := fun _ productId store =>
      match store.find? (fun p => decide (p.ProductID = productId)) with
      | some p => ((p, none), store)
      | none => ((domain.Product.zero, gorm.ErrRecordNotFound), store)
    FindAll := fun _ store => ((Slice.of store, none), store)
    Delete := fun _ product store =>
      (none, store.filter (fun p => decide (p.ProductID ≠ product.ProductID))) }

/-- A fresh run of the in-memory double: nothing stored, empty call log. -/
def Run.empty : Run (List domain.Product) := { store := [], calls := [] }

/-- A product service double with canned results, like the gomock `MockProductService`
of the controller tests; its state is trivial. -/
def mockProductService (create update findById : web.ProductResponse × error) (delete : error)
    (findAll : Slice web.ProductResponse × error) : service.ProductService Unit :=
  { Create := fun _ _ s => (create, s)
    Update := fun _ _ s => (update, s)
    Delete := fun _ _ s => (delete, s)
    FindById := fun _ _ s => (findById, s)
    FindAll := fun _ s => (findAll, s) }

/-- An employee service double with canned results; its state is trivial. -/
def mockEmployeeService (create update findById : web.EmployeeResponse × error) (delete : error)
    (findAll : Slice web.EmployeeResponse × error) : service.EmployeeService Unit :=
  { Create := fun _ _ s => (create, s)
    Update := fun _ _ s => (update, s)
    Delete := fun _ _ s => (delete, s)
    FindById := fun _ _ s => (findById, s)
    FindAll := fun _ s => (findAll, s) }

/-- A request whose body decodes to `body` without error and whose route binds the path
parameter `key` to `id`. -/
def requestCtx {β : Type} (body : β) (key id : String) : fiber.Ctx β :=
  { BodyParser := fun _ => (body, none)
    Params := fun k => if k = key then id else ""
    Context := ⟨0⟩ }

/-- A fresh service state for the doubles: trivial state, empty call log. -/
def Served.fresh {γ υ : Type} : Served Unit γ υ := { state := (), calls := [] }

/-- The zero value `web.EmployeeResponse{}`. -/
def web.EmployeeResponse.zero : web.EmployeeResponse :=
  { EmployeeID := "", Name := "", Role := "", Email := "", Phone := "", DateHired := "" }

/-- A product service double on which every call fails with the given error. -/
def failingProductService (e : GoError) : service.ProductService Unit :=
  mockProductService (web.ProductResponse.zero, some e) (web.ProductResponse.zero, some e)
    (web.ProductResponse.zero, some e) (some e) (Slice.nil, some e)

/-- An employee service double on which every call fails with the given error. -/
def failingEmployeeService (e : GoError) : service.EmployeeService Unit :=
  mockEmployeeService (web.EmployeeResponse.zero, some e) (web.EmployeeResponse.zero, some e)
    (web.EmployeeResponse.zero, some e) (some e) (Slice.nil, some e)

/-- The reply the spec's HTTP mapping gives for a not-found service error: HTTP 404 with
envelope code 404, status "Not Found" and the error message as data. -/
def notFoundReply (e : GoError) : Reply :=
  { status := 404, body := { Code := 404, Status := "Not Found", Data := web.Data.text e.Error } }

/-- The reply the spec's HTTP mapping gives for any other service error: HTTP 500 with
envelope code 500, status "Internal Server Error" and the error message as data. -/
def internalErrorReply (e : GoError) : Reply :=
  { status := 500
    body := { Code := 500, Status := "Internal Server Error", Data := web.Data.text e.Error } }

/-- The reply the spec's HTTP mapping gives for a service error: 404 for a
`NotFoundError`, 500 for every other error. -/
def serviceErrorReply (e : GoError) : Reply :=
  if exception.isNotFoundError (some e) then notFoundReply e else internalErrorReply e

/-- The Response `web.ProductResponse{ProductID: "1", Name: "Product A", Price: 1000}` of
`TestProductController`; 4652007308841189376 is the bit pattern of 1000. -/
def productA : web.ProductResponse :=
  { web.ProductResponse.zero with
    ProductID := "1"
    Name := "Product A"
    Price := ⟨4652007308841189376⟩ }

/-- The body `web.ProductCreateRequest{Name: "Product A", Price: 1000}` of
`TestProductController`. -/
def productACreate : web.ProductCreateRequest :=
  { web.ProductCreateRequest.zero with
    Name := "Product A"
    Price := ⟨4652007308841189376⟩ }

/-- The Response of the employee "John Doe" of `TestEmployeeController`. -/
def johnDoe : web.EmployeeResponse :=
  { web.EmployeeResponse.zero with
    EmployeeID := "1"
    Name := "John Doe"
    Role := "Software Engineer" }

/-- A product service double on which every call succeeds with the given Response. -/
def okProductService (r : web.ProductResponse) : service.ProductService Unit :=
  mockProductService (r, none) (r, none) (r, none) none (Slice.of [r], none)

/-- An employee service double on which every call succeeds with the given Response. -/
def okEmployeeService (r : web.EmployeeResponse) : service.EmployeeService Unit :=
  mockEmployeeService (r, none) (r, none) (r, none) none (Slice.of [r], none)

/-- A request whose body fails to decode with the given error; the route binds the path
parameter `key` to `id`. -/
def badBodyCtx {β : Type} (err : GoError) (key id : String) : fiber.Ctx β :=
  { BodyParser := fun out => (out, some err)
    Params := fun k => if k = key then id else ""
    Context := ⟨0⟩ }

/-- The property the spec's HTTP mapping asks of a reply: the envelope's code is the HTTP
status of the reply, and it is one of 200, 201, 400, 404 and 500. -/
def Reply.codeIsStatus (r : Reply) : Prop :=
  r.body.Code = r.status ∧ r.status ∈ ([200, 201, 400, 404, 500] : List Int)

/-- The registration `products.Get("/:productId", productController.FindById)`. -/
def productFindByIdRoute : Route :=
  { group := "/api/products", method := "GET", path := "/:productId"
    controller := "productController", action := ControllerAction.FindById }

/-- A body parser for handlers that read no body. -/
def noBody : Unit → Unit × error := fun u => (u, none)

/-! ## Theorems -/

/-- C1: when the repository's lookup for the request's ProductID reports record-not-found,
`Update` returns the zero Response together with the NotFoundError "Product not found",
and the call log gains the lookup only: the repository's Update is not invoked. -/
theorem update_not_found {σ : Type} (svc : service.ProductServiceImpl σ) (ctx : Context)
    (request : web.ProductUpdateRequest) (w : Run σ)
    (hmiss : errors.Is (svc.ProductRepository.FindById ctx request.ProductID w.store).1.2
      gorm.ErrRecordNotFound = true) :
    (svc.Update ctx request w).1
        = (web.ProductResponse.zero, some (GoError.notFound "Product not found"))
      ∧ exception.isNotFoundError (svc.Update ctx request w).1.2 = true
      ∧ (svc.Update ctx request w).2.calls = w.calls ++ [RepoCall.FindById request.ProductID]
      ∧ ∀ p, RepoCall.Update p ∈ (svc.Update ctx request w).2.calls →
          RepoCall.Update p ∈ w.calls := by
  have h : svc.Update ctx request w
      = ((web.ProductResponse.zero, exception.NewNotFoundError "Product not found"),
          (svc.callFindById ctx request.ProductID w).2) := by
    simp only [service.ProductServiceImpl.Update, service.ProductServiceImpl.callFindById, hmiss,
      if_true]
  rw [h]
  refine ⟨rfl, rfl, rfl, ?_⟩
  intro p hp
  simpa [service.ProductServiceImpl.callFindById] using hp

/-- Witness for C1: the double whose lookup misses with the gorm sentinel. -/
theorem update_not_found_witness :
    errors.Is ((service.NewProductService missingRepository).ProductRepository.FindById ⟨0⟩
        laptopUpdate.ProductID Run.fresh.store).1.2 gorm.ErrRecordNotFound = true
      ∧ ((service.NewProductService missingRepository).Update ⟨0⟩ laptopUpdate Run.fresh).1
          = (web.ProductResponse.zero, some (GoError.notFound "Product not found"))
      ∧ ((service.NewProductService missingRepository).Update ⟨0⟩ laptopUpdate Run.fresh).2.calls
          = [RepoCall.FindById "1"] :=
  ⟨by decide,
   (update_not_found (service.NewProductService missingRepository) ⟨0⟩ laptopUpdate Run.fresh
      (by decide)).1,
   (update_not_found (service.NewProductService missingRepository) ⟨0⟩ laptopUpdate Run.fresh
      (by decide)).2.2.1⟩

/-- C2: when the repository's lookup for the id reports record-not-found, `Delete`
returns the NotFoundError "Product not found" and the call log gains the lookup only:
the repository's Delete is not invoked. -/
theorem delete_not_found {σ : Type} (svc : service.ProductServiceImpl σ) (ctx : Context)
    (productId : String) (w : Run σ)
    (hmiss : errors.Is (svc.ProductRepository.FindById ctx productId w.store).1.2
      gorm.ErrRecordNotFound = true) :
    (svc.Delete ctx productId w).1 = some (GoError.notFound "Product not found")
      ∧ exception.isNotFoundError (svc.Delete ctx productId w).1 = true
      ∧ (svc.Delete ctx productId w).2.calls = w.calls ++ [RepoCall.FindById productId]
      ∧ ∀ p, RepoCall.Delete p ∈ (svc.Delete ctx productId w).2.calls →
          RepoCall.Delete p ∈ w.calls := by
  have h : svc.Delete ctx productId w
      = (exception.NewNotFoundError "Product not found",
          (svc.callFindById ctx productId w).2) := by
    simp only [service.ProductServiceImpl.Delete, service.ProductServiceImpl.callFindById, hmiss,
      if_true]
  rw [h]
  refine ⟨rfl, rfl, rfl, ?_⟩
  intro p hp
  simpa [service.ProductServiceImpl.callFindById] using hp

/-- Witness for C2: the double whose lookup misses with the gorm sentinel, id "999". -/
theorem delete_not_found_witness :
    errors.Is ((service.NewProductService missingRepository).ProductRepository.FindById ⟨0⟩
        "999" Run.fresh.store).1.2 gorm.ErrRecordNotFound = true
      ∧ ((service.NewProductService missingRepository).Delete ⟨0⟩ "999" Run.fresh).1
          = some (GoError.notFound "Product not found")
      ∧ ((service.NewProductService missingRepository).Delete ⟨0⟩ "999" Run.fresh).2.calls
          = [RepoCall.FindById "999"] :=
  ⟨by decide,
   (delete_not_found (service.NewProductService missingRepository) ⟨0⟩ "999" Run.fresh
      (by decide)).1,
   (delete_not_found (service.NewProductService missingRepository) ⟨0⟩ "999" Run.fresh
      (by decide)).2.2.1⟩

/-- C3 (the code at the failing input): `Create` on the all-zero request, which violates
the `required` tags, does not fail with a ValidationError. On every repository it calls
Save with the entity built from the request and returns Save's error; on a repository
whose Save succeeds it returns the saved entity's Response and no error. -/
theorem create_runs_no_validation {σ : Type} (svc : service.ProductServiceImpl σ)
    (ctx : Context) (w : Run σ) :
    emptyCreate.requiredStrings = false
      ∧ (svc.Create ctx emptyCreate w).2.calls = w.calls ++ [RepoCall.Save domain.Product.zero]
      ∧ (svc.Create ctx emptyCreate w).1.2
          = (svc.ProductRepository.Save ctx domain.Product.zero w.store).1.2
      ∧ ((service.NewProductService laptopRepository).Create ⟨0⟩ emptyCreate Run.fresh).1
          = (helper.ToProductResponse laptop, none)
      ∧ isValidationError
          ((service.NewProductService laptopRepository).Create ⟨0⟩ emptyCreate Run.fresh).1.2
          = false := by
  refine ⟨by decide, ?_, ?_, by decide, by decide⟩
  · unfold service.ProductServiceImpl.Create
    simp only [service.ProductServiceImpl.callSave]
    split <;> rfl
  · unfold service.ProductServiceImpl.Create
    simp only [service.ProductServiceImpl.callSave]
    split
    · rfl
    · rename_i h
      have h2 := of_not_not h
      simpa [emptyCreate, domain.Product.zero] using h2.symm

/-- C4 (the code at the failing inputs): `Update` runs no validation. On every repository
its first step, for the request with an empty Name and for the request with an empty
ProductID alike, is the repository lookup; on a repository whose calls succeed both
requests go on to the repository's Update and end without error. -/
theorem update_runs_no_validation {σ : Type} (svc : service.ProductServiceImpl σ)
    (ctx : Context) (w : Run σ) :
    emptyUpdate.requiredStrings = false ∧ noIdUpdate.requiredStrings = false
      ∧ (w.calls ++ [RepoCall.FindById "1"]) <+: (svc.Update ctx emptyUpdate w).2.calls
      ∧ (w.calls ++ [RepoCall.FindById ""]) <+: (svc.Update ctx noIdUpdate w).2.calls
      ∧ ((service.NewProductService laptopRepository).Update ⟨0⟩ emptyUpdate Run.fresh).1
          = (helper.ToProductResponse laptop, none)
      ∧ ((service.NewProductService laptopRepository).Update ⟨0⟩ emptyUpdate Run.fresh).2.calls
          = [RepoCall.FindById "1", RepoCall.Update { domain.Product.zero with ProductID := "1" }]
      ∧ ((service.NewProductService laptopRepository).Update ⟨0⟩ noIdUpdate Run.fresh).1
          = (helper.ToProductResponse laptop, none)
      ∧ ((service.NewProductService laptopRepository).Update ⟨0⟩ noIdUpdate Run.fresh).2.calls
          = [RepoCall.FindById "",
             RepoCall.Update gamingLaptop] := by
  refine ⟨by decide, by decide, ?_, ?_, by decide, by decide, by decide, by decide⟩
  · unfold service.ProductServiceImpl.Update
    simp only [service.ProductServiceImpl.callFindById, service.ProductServiceImpl.callUpdate]
    split_ifs <;> simp [emptyUpdate]
  · unfold service.ProductServiceImpl.Update
    simp only [service.ProductServiceImpl.callFindById, service.ProductServiceImpl.callUpdate]
    split_ifs <;> simp [noIdUpdate, laptopUpdate]

/-- C5 (counterexample): the lookup error of `typedMissRepository` is non-nil and neither
is nor wraps the gorm sentinel, yet the error `FindById`, `Update` and `Delete` return is
a NotFoundError: the returned error being a NotFoundError does not imply that the lookup
error is the record-not-found signal. -/
theorem lookup_error_iff_fails :
    (typedMissRepository.FindById ⟨0⟩ "1" ()).1.2 ≠ none
      ∧ errors.Is (typedMissRepository.FindById ⟨0⟩ "1" ()).1.2 gorm.ErrRecordNotFound = false
      ∧ exception.isNotFoundError
          ((service.NewProductService typedMissRepository).FindById ⟨0⟩ "1" Run.fresh).1.2 = true
      ∧ exception.isNotFoundError
          ((service.NewProductService typedMissRepository).Update ⟨0⟩ laptopUpdate Run.fresh).1.2
          = true
      ∧ exception.isNotFoundError
          ((service.NewProductService typedMissRepository).Delete ⟨0⟩ "1" Run.fresh).1 = true := by
  decide

/-- C5 (amended): for every non-nil lookup error e, each of `FindById`, `Update` and
`Delete` returns a non-nil error; it is the NotFoundError "Product not found" when e is or
wraps the gorm sentinel, and e itself otherwise. Hence it is a NotFoundError exactly when
e is or wraps the sentinel or e is a NotFoundError already. -/
theorem lookup_error_translation {σ : Type} (svc : service.ProductServiceImpl σ) (ctx : Context)
    (request : web.ProductUpdateRequest) (w : Run σ)
    (herr : (svc.ProductRepository.FindById ctx request.ProductID w.store).1.2 ≠ none) :
    ((svc.FindById ctx request.ProductID w).1.2 ≠ none
        ∧ (svc.Update ctx request w).1.2 ≠ none
        ∧ (svc.Delete ctx request.ProductID w).1 ≠ none)
      ∧ (svc.FindById ctx request.ProductID w).1.2 = (svc.Update ctx request w).1.2
      ∧ (svc.Delete ctx request.ProductID w).1 = (svc.Update ctx request w).1.2
      ∧ (errors.Is (svc.ProductRepository.FindById ctx request.ProductID w.store).1.2
            gorm.ErrRecordNotFound = true →
          (svc.Update ctx request w).1.2 = some (GoError.notFound "Product not found"))
      ∧ (errors.Is (svc.ProductRepository.FindById ctx request.ProductID w.store).1.2
            gorm.ErrRecordNotFound = false →
          (svc.Update ctx request w).1.2
            = (svc.ProductRepository.FindById ctx request.ProductID w.store).1.2)
      ∧ (exception.isNotFoundError (svc.Update ctx request w).1.2 = true ↔
          (errors.Is (svc.ProductRepository.FindById ctx request.ProductID w.store).1.2
              gorm.ErrRecordNotFound = true
            ∨ exception.isNotFoundError
                (svc.ProductRepository.FindById ctx request.ProductID w.store).1.2 = true)) := by
  unfold service.ProductServiceImpl.FindById service.ProductServiceImpl.Update
    service.ProductServiceImpl.Delete
  simp only [service.ProductServiceImpl.callFindById]
  cases hIs : errors.Is (svc.ProductRepository.FindById ctx request.ProductID w.store).1.2
      gorm.ErrRecordNotFound
  · simp [herr]
  · simp [exception.NewNotFoundError, exception.isNotFoundError]

/-- Witness for C5 (amended): the double whose lookup fails with `errors.New("not found")`;
the three operations hand that error back unchanged. -/
theorem lookup_error_translation_witness :
    (failingRepository.FindById ⟨0⟩ laptopUpdate.ProductID ()).1.2 ≠ none
      ∧ ((service.NewProductService failingRepository).Update ⟨0⟩ laptopUpdate Run.fresh).1.2
          = some (GoError.plain "not found")
      ∧ ((service.NewProductService failingRepository).FindById ⟨0⟩ "1" Run.fresh).1.2
          = some (GoError.plain "not found")
      ∧ ((service.NewProductService failingRepository).Delete ⟨0⟩ "1" Run.fresh).1
          = some (GoError.plain "not found") :=
  ⟨by decide,
   (lookup_error_translation (service.NewProductService failingRepository) ⟨0⟩ laptopUpdate
      Run.fresh (by decide)).2.2.2.2.1 (by decide),
   ((lookup_error_translation (service.NewProductService failingRepository) ⟨0⟩ laptopUpdate
      Run.fresh (by decide)).2.1).trans
     ((lookup_error_translation (service.NewProductService failingRepository) ⟨0⟩ laptopUpdate
      Run.fresh (by decide)).2.2.2.2.1 (by decide)),
   ((lookup_error_translation (service.NewProductService failingRepository) ⟨0⟩ laptopUpdate
      Run.fresh (by decide)).2.2.1).trans
     ((lookup_error_translation (service.NewProductService failingRepository) ⟨0⟩ laptopUpdate
      Run.fresh (by decide)).2.2.2.2.1 (by decide))⟩

/-- C6: if the repository's lookup succeeds with entity p, `FindById` returns exactly
`ToProductResponse p` and no error, and the call log gains exactly one call, the lookup;
if the lookup reports record-not-found, `FindById` returns the NotFoundError
"Product not found". -/
theorem find_by_id_maps {σ : Type} (svc : service.ProductServiceImpl σ) (ctx : Context)
    (productId : String) (w : Run σ) :
    (∀ p : domain.Product,
        (svc.ProductRepository.FindById ctx productId w.store).1 = (p, none) →
          (svc.FindById ctx productId w).1 = (helper.ToProductResponse p, none)
            ∧ (svc.FindById ctx productId w).2.calls = w.calls ++ [RepoCall.FindById productId])
      ∧ (errors.Is (svc.ProductRepository.FindById ctx productId w.store).1.2
            gorm.ErrRecordNotFound = true →
          (svc.FindById ctx productId w).1
              = (web.ProductResponse.zero, some (GoError.notFound "Product not found"))
            ∧ exception.isNotFoundError (svc.FindById ctx productId w).1.2 = true) := by
  unfold service.ProductServiceImpl.FindById
  simp only [service.ProductServiceImpl.callFindById]
  constructor
  · intro p hp
    simp [hp, errors.Is, gorm.ErrRecordNotFound]
  · intro hmiss
    simp [hmiss, exception.NewNotFoundError, exception.isNotFoundError]

/-- Witness for C6: the lookup of `laptopRepository` succeeds with `laptop`, and the
lookup of `missingRepository` reports record-not-found. -/
theorem find_by_id_maps_witness :
    (laptopRepository.FindById ⟨0⟩ "1" ()).1 = (laptop, none)
      ∧ ((service.NewProductService laptopRepository).FindById ⟨0⟩ "1" Run.fresh).1
          = (helper.ToProductResponse laptop, none)
      ∧ ((service.NewProductService laptopRepository).FindById ⟨0⟩ "1" Run.fresh).2.calls
          = [RepoCall.FindById "1"]
      ∧ errors.Is (missingRepository.FindById ⟨0⟩ "2" ()).1.2 gorm.ErrRecordNotFound = true
      ∧ ((service.NewProductService missingRepository).FindById ⟨0⟩ "2" Run.fresh).1
          = (web.ProductResponse.zero, some (GoError.notFound "Product not found")) :=
  ⟨rfl,
   ((find_by_id_maps (service.NewProductService laptopRepository) ⟨0⟩ "1" Run.fresh).1
      laptop rfl).1,
   ((find_by_id_maps (service.NewProductService laptopRepository) ⟨0⟩ "1" Run.fresh).1
      laptop rfl).2,
   by decide,
   ((find_by_id_maps (service.NewProductService missingRepository) ⟨0⟩ "2" Run.fresh).2
      (by decide)).1⟩

/-- C7: when the lookup succeeds with entity p, `Update` calls the repository's Update
with an entity whose Name, Description, Price, StockQty, Category, SKU and TaxRate are
the request's values, whatever they are and whatever p held. -/
theorem update_overwrites_mutable_fields {σ : Type} (svc : service.ProductServiceImpl σ)
    (ctx : Context) (request : web.ProductUpdateRequest) (w : Run σ) (p : domain.Product)
    (hfound : (svc.ProductRepository.FindById ctx request.ProductID w.store).1 = (p, none)) :
    ∃ q : domain.Product,
      (svc.Update ctx request w).2.calls
          = w.calls ++ [RepoCall.FindById request.ProductID, RepoCall.Update q]
        ∧ q.Name = request.Name ∧ q.Description = request.Description
        ∧ q.Price = request.Price ∧ q.StockQty = request.StockQty
        ∧ q.Category = request.Category ∧ q.SKU = request.SKU
        ∧ q.TaxRate = request.TaxRate := by
  refine ⟨{ p with
            Name := request.Name
            Description := request.Description
            Price := request.Price
            StockQty := request.StockQty
            Category := request.Category
            SKU := request.SKU
            TaxRate := request.TaxRate }, ?_, rfl, rfl, rfl, rfl, rfl, rfl, rfl⟩
  unfold service.ProductServiceImpl.Update
  simp only [service.ProductServiceImpl.callFindById, service.ProductServiceImpl.callUpdate, hfound]
  split_ifs <;> simp_all [errors.Is, gorm.ErrRecordNotFound]

/-- Witness for C7: `laptopRepository` finds `laptop`; the all-zero body overwrites its
Name with the empty string. -/
theorem update_overwrites_mutable_fields_witness :
    (laptopRepository.FindById ⟨0⟩ emptyUpdate.ProductID ()).1 = (laptop, none)
      ∧ ∃ q : domain.Product,
          ((service.NewProductService laptopRepository).Update ⟨0⟩ emptyUpdate Run.fresh).2.calls
              = Run.fresh.calls ++ [RepoCall.FindById emptyUpdate.ProductID, RepoCall.Update q]
            ∧ q.Name = emptyUpdate.Name ∧ q.Description = emptyUpdate.Description
            ∧ q.Price = emptyUpdate.Price ∧ q.StockQty = emptyUpdate.StockQty
            ∧ q.Category = emptyUpdate.Category ∧ q.SKU = emptyUpdate.SKU
            ∧ q.TaxRate = emptyUpdate.TaxRate :=
  ⟨rfl, update_overwrites_mutable_fields (service.NewProductService laptopRepository) ⟨0⟩
    emptyUpdate Run.fresh laptop rfl⟩

/-- C8: when the lookup succeeds with entity p, the entity `Update` hands to the
repository's Update carries p's ProductID, not the request's, and is p with its seven
mutable fields replaced and nothing else changed. -/
theorem update_keeps_identity {σ : Type} (svc : service.ProductServiceImpl σ)
    (ctx : Context) (request : web.ProductUpdateRequest) (w : Run σ) (p : domain.Product)
    (hfound : (svc.ProductRepository.FindById ctx request.ProductID w.store).1 = (p, none)) :
    ∃ q : domain.Product,
      (svc.Update ctx request w).2.calls
          = w.calls ++ [RepoCall.FindById request.ProductID, RepoCall.Update q]
        ∧ q.ProductID = p.ProductID
        ∧ q = { p with
                Name := request.Name
                Description := request.Description
                Price := request.Price
                StockQty := request.StockQty
                Category := request.Category
                SKU := request.SKU
                TaxRate := request.TaxRate } := by
  refine ⟨{ p with
            Name := request.Name
            Description := request.Description
            Price := request.Price
            StockQty := request.StockQty
            Category := request.Category
            SKU := request.SKU
            TaxRate := request.TaxRate }, ?_, rfl, rfl⟩
  unfold service.ProductServiceImpl.Update
  simp only [service.ProductServiceImpl.callFindById, service.ProductServiceImpl.callUpdate, hfound]
  split_ifs <;> simp_all [errors.Is, gorm.ErrRecordNotFound]

/-- Witness for C8: the lookup of `laptopRepository` returns `laptop` (identity "1") for
the request whose ProductID is empty; the entity handed on still has identity "1". -/
theorem update_keeps_identity_witness :
    (laptopRepository.FindById ⟨0⟩ noIdUpdate.ProductID ()).1 = (laptop, none)
      ∧ ∃ q : domain.Product,
          ((service.NewProductService laptopRepository).Update ⟨0⟩ noIdUpdate Run.fresh).2.calls
              = Run.fresh.calls ++ [RepoCall.FindById noIdUpdate.ProductID, RepoCall.Update q]
            ∧ q.ProductID = laptop.ProductID
            ∧ q = { laptop with
                    Name := noIdUpdate.Name
                    Description := noIdUpdate.Description
                    Price := noIdUpdate.Price
                    StockQty := noIdUpdate.StockQty
                    Category := noIdUpdate.Category
                    SKU := noIdUpdate.SKU
                    TaxRate := noIdUpdate.TaxRate } :=
  ⟨rfl, update_keeps_identity (service.NewProductService laptopRepository) ⟨0⟩ noIdUpdate
    Run.fresh laptop rfl⟩

/-- C9: for every request, `Create` makes exactly one repository call, a Save, of an
entity whose ProductID is empty and whose Name, Description, Price, StockQty, Category,
SKU and TaxRate are the request's. -/
theorem create_saves_request_fields {σ : Type} (svc : service.ProductServiceImpl σ)
    (ctx : Context) (request : web.ProductCreateRequest) (w : Run σ) :
    ∃ q : domain.Product,
      (svc.Create ctx request w).2.calls = w.calls ++ [RepoCall.Save q]
        ∧ q.ProductID = ""
        ∧ q.Name = request.Name ∧ q.Description = request.Description
        ∧ q.Price = request.Price ∧ q.StockQty = request.StockQty
        ∧ q.Category = request.Category ∧ q.SKU = request.SKU
        ∧ q.TaxRate = request.TaxRate := by
  refine ⟨{ ProductID := ""
            Name := request.Name
            Description := request.Description
            Price := request.Price
            StockQty := request.StockQty
            Category := request.Category
            SKU := request.SKU
            TaxRate := request.TaxRate }, ?_, rfl, rfl, rfl, rfl, rfl, rfl, rfl, rfl⟩
  unfold service.ProductServiceImpl.Create
  simp only [service.ProductServiceImpl.callSave]
  split_ifs <;> rfl

/-- C10: if Save succeeds with entity p, `Create` returns exactly `ToProductResponse p`
and no error; if the lookup succeeds with p0 and the repository's Update of the
overwritten entity succeeds with p, `Update` returns exactly `ToProductResponse p` and
no error. The request does not enter the Response. -/
theorem success_returns_mapped_entity {σ : Type} (svc : service.ProductServiceImpl σ)
    (ctx : Context) (w : Run σ) (p : domain.Product) :
    (∀ request : web.ProductCreateRequest,
        (svc.ProductRepository.Save ctx
            { ProductID := ""
              Name := request.Name
              Description := request.Description
              Price := request.Price
              StockQty := request.StockQty
              Category := request.Category
              SKU := request.SKU
              TaxRate := request.TaxRate } w.store).1 = (p, none) →
          (svc.Create ctx request w).1 = (helper.ToProductResponse p, none))
      ∧ (∀ (request : web.ProductUpdateRequest) (p0 : domain.Product),
          (svc.ProductRepository.FindById ctx request.ProductID w.store).1 = (p0, none) →
          (svc.ProductRepository.Update ctx
              { p0 with
                Name := request.Name
                Description := request.Description
                Price := request.Price
                StockQty := request.StockQty
                Category := request.Category
                SKU := request.SKU
                TaxRate := request.TaxRate }
              (svc.ProductRepository.FindById ctx request.ProductID w.store).2).1 = (p, none) →
          (svc.Update ctx request w).1 = (helper.ToProductResponse p, none)) := by
  constructor
  · intro request hsave
    unfold service.ProductServiceImpl.Create
    simp only [service.ProductServiceImpl.callSave, hsave]
    simp
  · intro request p0 hfound hupdate
    unfold service.ProductServiceImpl.Update
    simp only [service.ProductServiceImpl.callFindById, service.ProductServiceImpl.callUpdate,
      hfound, hupdate]
    simp [errors.Is, gorm.ErrRecordNotFound]

/-- Witness for C10: on `laptopRepository` Save and Update succeed with `laptop`; the
all-zero create request and the all-zero update body both get `laptop`'s Response. -/
theorem success_returns_mapped_entity_witness :
    (laptopRepository.Save ⟨0⟩ domain.Product.zero ()).1 = (laptop, none)
      ∧ ((service.NewProductService laptopRepository).Create ⟨0⟩ emptyCreate Run.fresh).1
          = (helper.ToProductResponse laptop, none)
      ∧ ((service.NewProductService laptopRepository).Update ⟨0⟩ emptyUpdate Run.fresh).1
          = (helper.ToProductResponse laptop, none) :=
  ⟨rfl,
   (success_returns_mapped_entity (service.NewProductService laptopRepository) ⟨0⟩ Run.fresh
      laptop).1 emptyCreate rfl,
   (success_returns_mapped_entity (service.NewProductService laptopRepository) ⟨0⟩ Run.fresh
      laptop).2 emptyUpdate laptop rfl rfl⟩

/-- After a range loop that appends `f x` for each `x`, the slice holds the elements it
started with followed by the images, in order. -/
theorem Slice.elems_foldl_append {α β : Type} (f : α → β) (xs : List α) (init : Slice β) :
    (xs.foldl (fun acc x => acc.append (f x)) init).elems = init.elems ++ xs.map f := by
  induction xs generalizing init with
  | nil => simp
  | cons x xs ih =>
    rw [List.foldl_cons, ih]
    simp [Slice.append, Slice.elems]

/-- A range loop over no elements leaves the slice as it was. -/
theorem Slice.foldl_append_of_len_zero {α β : Type} (f : α → β) (s : Slice α) (init : Slice β)
    (h : s.len = 0) : s.elems.foldl (fun acc x => acc.append (f x)) init = init := by
  have : s.elems = [] := List.length_eq_zero.mp h
  rw [this]
  rfl

/-- C11: if Save fails with error e, `Create` returns e; if the lookup succeeds and the
repository's Update of the overwritten entity fails with e, `Update` returns e. -/
theorem mutation_failure_surfaces {σ : Type} (svc : service.ProductServiceImpl σ)
    (ctx : Context) (w : Run σ) (e : GoError) :
    (∀ (request : web.ProductCreateRequest),
        (svc.ProductRepository.Save ctx
            { ProductID := ""
              Name := request.Name
              Description := request.Description
              Price := request.Price
              StockQty := request.StockQty
              Category := request.Category
              SKU := request.SKU
              TaxRate := request.TaxRate } w.store).1.2 = some e →
          (svc.Create ctx request w).1.2 = some e)
      ∧ (∀ (request : web.ProductUpdateRequest) (p0 : domain.Product),
          (svc.ProductRepository.FindById ctx request.ProductID w.store).1 = (p0, none) →
          (svc.ProductRepository.Update ctx
              { p0 with
                Name := request.Name
                Description := request.Description
                Price := request.Price
                StockQty := request.StockQty
                Category := request.Category
                SKU := request.SKU
                TaxRate := request.TaxRate }
              (svc.ProductRepository.FindById ctx request.ProductID w.store).2).1.2 = some e →
          (svc.Update ctx request w).1.2 = some e) := by
  constructor
  · intro request hsave
    unfold service.ProductServiceImpl.Create
    simp only [service.ProductServiceImpl.callSave, hsave]
    simp
  · intro request p0 hfound hupdate
    unfold service.ProductServiceImpl.Update
    simp only [service.ProductServiceImpl.callFindById, service.ProductServiceImpl.callUpdate,
      hfound, hupdate]
    simp [errors.Is, gorm.ErrRecordNotFound]

/-- Witness for C11: the doubles whose Save, resp. Update, fails with
`errors.New("repository error")`. -/
theorem mutation_failure_surfaces_witness :
    (brokenSaveRepository.Save ⟨0⟩ domain.Product.zero ()).1.2
        = some (GoError.plain "repository error")
      ∧ ((service.NewProductService brokenSaveRepository).Create ⟨0⟩ emptyCreate Run.fresh).1.2
          = some (GoError.plain "repository error")
      ∧ ((service.NewProductService brokenUpdateRepository).Update ⟨0⟩ laptopUpdate
            Run.fresh).1.2
          = some (GoError.plain "repository error") :=
  ⟨rfl,
   (mutation_failure_surfaces (service.NewProductService brokenSaveRepository) ⟨0⟩ Run.fresh
      (GoError.plain "repository error")).1 emptyCreate rfl,
   (mutation_failure_surfaces (service.NewProductService brokenUpdateRepository) ⟨0⟩ Run.fresh
      (GoError.plain "repository error")).2 laptopUpdate laptop rfl rfl⟩

/-- C12: when the lookup succeeds with entity p, `Delete` makes exactly two repository
calls, the lookup and then one Delete of p itself, and returns what that Delete call
returned, nil or error alike. -/
theorem delete_passes_entity {σ : Type} (svc : service.ProductServiceImpl σ) (ctx : Context)
    (productId : String) (w : Run σ) (p : domain.Product)
    (hfound : (svc.ProductRepository.FindById ctx productId w.store).1 = (p, none)) :
    (svc.Delete ctx productId w).2.calls
        = w.calls ++ [RepoCall.FindById productId, RepoCall.Delete p]
      ∧ (svc.Delete ctx productId w).1
          = (svc.ProductRepository.Delete ctx p
              (svc.ProductRepository.FindById ctx productId w.store).2).1 := by
  unfold service.ProductServiceImpl.Delete
  simp only [service.ProductServiceImpl.callFindById, service.ProductServiceImpl.callDelete,
    hfound]
  simp [errors.Is, gorm.ErrRecordNotFound]

/-- Witness for C12: on `brokenDeleteRepository` the lookup finds `laptop` and Delete
fails; on `laptopRepository` Delete succeeds. -/
theorem delete_passes_entity_witness :
    (brokenDeleteRepository.FindById ⟨0⟩ "2" ()).1 = (laptop, none)
      ∧ ((service.NewProductService brokenDeleteRepository).Delete ⟨0⟩ "2" Run.fresh).2.calls
          = Run.fresh.calls ++ [RepoCall.FindById "2", RepoCall.Delete laptop]
      ∧ ((service.NewProductService brokenDeleteRepository).Delete ⟨0⟩ "2" Run.fresh).1
          = some (GoError.plain "failed to delete product")
      ∧ ((service.NewProductService laptopRepository).Delete ⟨0⟩ "1" Run.fresh).1 = none :=
  ⟨rfl,
   (delete_passes_entity (service.NewProductService brokenDeleteRepository) ⟨0⟩ "2" Run.fresh
      laptop rfl).1,
   (delete_passes_entity (service.NewProductService brokenDeleteRepository) ⟨0⟩ "2" Run.fresh
      laptop rfl).2,
   (delete_passes_entity (service.NewProductService laptopRepository) ⟨0⟩ "1" Run.fresh
      laptop rfl).2⟩

/-- C13: if Save returns the entity it was given with a non-empty ProductID assigned and
nothing else changed, and FindById of that id then returns the saved entity, `Create`
succeeds with a Response whose ProductID is that non-empty id and whose other fields are
the request's, and `FindById` of that ProductID afterwards returns the same Response. -/
theorem create_then_find_by_id {σ : Type} (svc : service.ProductServiceImpl σ) (ctx : Context)
    (request : web.ProductCreateRequest) (w : Run σ) (id : String) (hid : id ≠ "")
    (hsave : (svc.ProductRepository.Save ctx
        { ProductID := ""
          Name := request.Name
          Description := request.Description
          Price := request.Price
          StockQty := request.StockQty
          Category := request.Category
          SKU := request.SKU
          TaxRate := request.TaxRate } w.store).1
      = ({ ProductID := id
           Name := request.Name
           Description := request.Description
           Price := request.Price
           StockQty := request.StockQty
           Category := request.Category
           SKU := request.SKU
           TaxRate := request.TaxRate }, none))
    (hfind : (svc.ProductRepository.FindById ctx id (svc.Create ctx request w).2.store).1
      = ({ ProductID := id
           Name := request.Name
           Description := request.Description
           Price := request.Price
           StockQty := request.StockQty
           Category := request.Category
           SKU := request.SKU
           TaxRate := request.TaxRate }, none)) :
    (svc.Create ctx request w).1.2 = none
      ∧ (svc.Create ctx request w).1.1.ProductID = id
      ∧ (svc.Create ctx request w).1.1.ProductID ≠ ""
      ∧ (svc.Create ctx request w).1.1.Name = request.Name
      ∧ (svc.Create ctx request w).1.1.Description = request.Description
      ∧ (svc.Create ctx request w).1.1.Price = request.Price
      ∧ (svc.Create ctx request w).1.1.StockQty = request.StockQty
      ∧ (svc.Create ctx request w).1.1.Category = request.Category
      ∧ (svc.Create ctx request w).1.1.SKU = request.SKU
      ∧ (svc.Create ctx request w).1.1.TaxRate = request.TaxRate
      ∧ (svc.FindById ctx (svc.Create ctx request w).1.1.ProductID
            (svc.Create ctx request w).2).1
          = ((svc.Create ctx request w).1.1, none) := by
  have hcreate : (svc.Create ctx request w).1
      = (helper.ToProductResponse
          { ProductID := id
            Name := request.Name
            Description := request.Description
            Price := request.Price
            StockQty := request.StockQty
            Category := request.Category
            SKU := request.SKU
            TaxRate := request.TaxRate }, none) := by
    unfold service.ProductServiceImpl.Create
    simp only [service.ProductServiceImpl.callSave, hsave]
    simp
  have hlookup : (svc.FindById ctx id (svc.Create ctx request w).2).1
      = (helper.ToProductResponse
          { ProductID := id
            Name := request.Name
            Description := request.Description
            Price := request.Price
            StockQty := request.StockQty
            Category := request.Category
            SKU := request.SKU
            TaxRate := request.TaxRate }, none) := by
    unfold service.ProductServiceImpl.FindById
    simp only [service.ProductServiceImpl.callFindById, hfind]
    simp [errors.Is, gorm.ErrRecordNotFound]
  rw [hcreate]
  refine ⟨rfl, rfl, hid, rfl, rfl, rfl, rfl, rfl, rfl, rfl, ?_⟩
  exact hlookup

/-- Witness for C13: the in-memory double assigns the identity "p" to the first saved
entity and finds it again. -/
theorem create_then_find_by_id_witness :
    ((service.NewProductService memoryRepository).Create ⟨0⟩ laptopCreate Run.empty).1.2 = none
      ∧ ((service.NewProductService memoryRepository).Create ⟨0⟩ laptopCreate
            Run.empty).1.1.ProductID = "p"
      ∧ ((service.NewProductService memoryRepository).FindById ⟨0⟩
            ((service.NewProductService memoryRepository).Create ⟨0⟩ laptopCreate
              Run.empty).1.1.ProductID
            ((service.NewProductService memoryRepository).Create ⟨0⟩ laptopCreate Run.empty).2).1
          = (((service.NewProductService memoryRepository).Create ⟨0⟩ laptopCreate
              Run.empty).1.1, none) :=
  ⟨(create_then_find_by_id (service.NewProductService memoryRepository) ⟨0⟩ laptopCreate
      Run.empty "p" (by decide) rfl (by decide)).1,
   (create_then_find_by_id (service.NewProductService memoryRepository) ⟨0⟩ laptopCreate
      Run.empty "p" (by decide) rfl (by decide)).2.1,
   (create_then_find_by_id (service.NewProductService memoryRepository) ⟨0⟩ laptopCreate
      Run.empty "p" (by decide) rfl (by decide)).2.2.2.2.2.2.2.2.2.2⟩

/-- C14: when the repository's FindAll returns a slice of length 0, nil or empty, and no
error, `FindAll` returns a slice of length 0 (the nil slice) and no error. -/
theorem find_all_empty {σ : Type} (svc : service.ProductServiceImpl σ) (ctx : Context)
    (w : Run σ)
    (hlen : (svc.ProductRepository.FindAll ctx w.store).1.1.len = 0)
    (herr : (svc.ProductRepository.FindAll ctx w.store).1.2 = none) :
    (svc.FindAll ctx w).1.1.len = 0
      ∧ (svc.FindAll ctx w).1.2 = none
      ∧ (svc.FindAll ctx w).1.1 = Slice.nil := by
  have h : (svc.FindAll ctx w).1 = (Slice.nil, none) := by
    unfold service.ProductServiceImpl.FindAll
    simp only [service.ProductServiceImpl.callFindAll, herr]
    simp [helper.ToProductResponses,
      Slice.foldl_append_of_len_zero helper.ToProductResponse _ Slice.nil hlen]
  rw [h]
  exact ⟨rfl, rfl, rfl⟩

/-- Witness for C14: the double whose FindAll returns the nil slice; the call also ends
with length 0 on the double that returns the empty non-nil slice. -/
theorem find_all_empty_witness :
    (nilRepository.FindAll ⟨0⟩ ()).1.1.len = 0
      ∧ (nilRepository.FindAll ⟨0⟩ ()).1.2 = none
      ∧ ((service.NewProductService nilRepository).FindAll ⟨0⟩ Run.fresh).1.1.len = 0
      ∧ ((service.NewProductService nilRepository).FindAll ⟨0⟩ Run.fresh).1.2 = none
      ∧ ((service.NewProductService missingRepository).FindAll ⟨0⟩ Run.fresh).1.1.len = 0 :=
  ⟨rfl, rfl,
   (find_all_empty (service.NewProductService nilRepository) ⟨0⟩ Run.fresh rfl rfl).1,
   (find_all_empty (service.NewProductService nilRepository) ⟨0⟩ Run.fresh rfl rfl).2.1,
   (find_all_empty (service.NewProductService missingRepository) ⟨0⟩ Run.fresh rfl rfl).1⟩

/-- C15: when the repository's FindAll succeeds with the sequence ps, `FindAll` returns no
error and the Responses of all of ps in the repository's order: the same length, and at
every index i the i-th result is `ToProductResponse` of the i-th element of ps. -/
theorem find_all_maps_each {σ : Type} (svc : service.ProductServiceImpl σ) (ctx : Context)
    (w : Run σ) (ps : Slice domain.Product)
    (hall : (svc.ProductRepository.FindAll ctx w.store).1 = (ps, none)) :
    (svc.FindAll ctx w).1.2 = none
      ∧ (svc.FindAll ctx w).1.1.elems = ps.elems.map helper.ToProductResponse
      ∧ (svc.FindAll ctx w).1.1.len = ps.len
      ∧ ∀ i : Nat, (svc.FindAll ctx w).1.1.elems[i]?
          = (ps.elems[i]?).map helper.ToProductResponse := by
  have h : (svc.FindAll ctx w).1 = (helper.ToProductResponses ps, none) := by
    unfold service.ProductServiceImpl.FindAll
    simp only [service.ProductServiceImpl.callFindAll, hall]
    simp
  have helems : (helper.ToProductResponses ps).elems = ps.elems.map helper.ToProductResponse := by
    unfold helper.ToProductResponses
    rw [Slice.elems_foldl_append]
    simp [Slice.elems]
  rw [h]
  refine ⟨rfl, helems, ?_, ?_⟩
  · simp [Slice.len, helems]
  · intro i
    simp [helems]

/-- Witness for C15: the double of `TestFindAllProduct`, whose FindAll returns one
product. -/
theorem find_all_maps_each_witness :
    (laptopRepository.FindAll ⟨0⟩ ()).1 = (Slice.of [laptop], none)
      ∧ ((service.NewProductService laptopRepository).FindAll ⟨0⟩ Run.fresh).1.1.elems
          = [helper.ToProductResponse laptop]
      ∧ ((service.NewProductService laptopRepository).FindAll ⟨0⟩ Run.fresh).1.1.len = 1 :=
  ⟨rfl,
   (find_all_maps_each (service.NewProductService laptopRepository) ⟨0⟩ Run.fresh
      (Slice.of [laptop]) rfl).2.1,
   (find_all_maps_each (service.NewProductService laptopRepository) ⟨0⟩ Run.fresh
      (Slice.of [laptop]) rfl).2.2.1⟩

/-- C16: for Category, Employee, Product and Customer, the plural mapper visits the input
in order and yields exactly the singular mapper applied to each element, hence a result
of the same length; on an input of length 0, nil or empty, it yields a result of length
0. The mappers are total functions, so they cannot fail. -/
theorem plural_mappers_elementwise :
    (∀ xs : Slice domain.Category,
        (helper.ToCategoryResponses xs).elems = xs.elems.map helper.ToCategoryResponse
          ∧ (helper.ToCategoryResponses xs).len = xs.len
          ∧ (xs.len = 0 → (helper.ToCategoryResponses xs).len = 0))
      ∧ (∀ xs : Slice domain.Employee,
        (helper.ToEmployeeResponses xs).elems = xs.elems.map helper.ToEmployeeResponse
          ∧ (helper.ToEmployeeResponses xs).len = xs.len
          ∧ (xs.len = 0 → (helper.ToEmployeeResponses xs).len = 0))
      ∧ (∀ xs : Slice domain.Product,
        (helper.ToProductResponses xs).elems = xs.elems.map helper.ToProductResponse
          ∧ (helper.ToProductResponses xs).len = xs.len
          ∧ (xs.len = 0 → (helper.ToProductResponses xs).len = 0))
      ∧ (∀ xs : Slice domain.Customer,
        (helper.ToCustomerResponses xs).elems = xs.elems.map helper.ToCustomerResponse
          ∧ (helper.ToCustomerResponses xs).len = xs.len
          ∧ (xs.len = 0 → (helper.ToCustomerResponses xs).len = 0)) := by
  refine ⟨?_, ?_, ?_, ?_⟩
  · intro xs
    have h : (helper.ToCategoryResponses xs).elems = xs.elems.map helper.ToCategoryResponse := by
      unfold helper.ToCategoryResponses
      rw [Slice.elems_foldl_append]
      simp [Slice.elems]
    refine ⟨h, ?_, ?_⟩
    · simp [Slice.len, h]
    · intro h0
      simpa [Slice.len, h] using h0
  · intro xs
    have h : (helper.ToEmployeeResponses xs).elems = xs.elems.map helper.ToEmployeeResponse := by
      unfold helper.ToEmployeeResponses
      rw [Slice.elems_foldl_append]
      simp [Slice.elems]
    refine ⟨h, ?_, ?_⟩
    · simp [Slice.len, h]
    · intro h0
      simpa [Slice.len, h] using h0
  · intro xs
    have h : (helper.ToProductResponses xs).elems = xs.elems.map helper.ToProductResponse := by
      unfold helper.ToProductResponses
      rw [Slice.elems_foldl_append]
      simp [Slice.elems]
    refine ⟨h, ?_, ?_⟩
    · simp [Slice.len, h]
    · intro h0
      simpa [Slice.len, h] using h0
  · intro xs
    have h : (helper.ToCustomerResponses xs).elems = xs.elems.map helper.ToCustomerResponse := by
      unfold helper.ToCustomerResponses
      rw [Slice.elems_foldl_append]
      simp [Slice.elems]
    refine ⟨h, ?_, ?_⟩
    · simp [Slice.len, h]
    · intro h0
      simpa [Slice.len, h] using h0

/-- Witness for C16: the implications inside the theorem, at the nil slice of products and
at a slice of two categories. -/
theorem plural_mappers_elementwise_witness :
    (Slice.nil : Slice domain.Product).len = 0
      ∧ (helper.ToProductResponses Slice.nil).len = 0
      ∧ (helper.ToCategoryResponses (Slice.of [⟨"1", "Food"⟩, ⟨"2", "Drink"⟩])).elems
          = [⟨"1", "Food"⟩, ⟨"2", "Drink"⟩] :=
  ⟨rfl, (plural_mappers_elementwise.2.2.1 Slice.nil).2.2 rfl,
   (plural_mappers_elementwise.1 (Slice.of [⟨"1", "Food"⟩, ⟨"2", "Drink"⟩])).1⟩

/-- C17: for Category, Employee, Product and Customer, every field of the Response equals
the same-named field of the entity; an entity rebuilt from the Response's fields maps to
the same Response; and two entities with equal Responses are equal, so entities that
differ in a declared field have different Responses. -/
theorem mappers_lossless :
    (∀ e : domain.Category,
        ((helper.ToCategoryResponse e).Id = e.Id ∧ (helper.ToCategoryResponse e).Name = e.Name)
          ∧ helper.ToCategoryResponse
              { Id := (helper.ToCategoryResponse e).Id
                Name := (helper.ToCategoryResponse e).Name } = helper.ToCategoryResponse e)
      ∧ (∀ e1 e2 : domain.Category, e1 ≠ e2 →
          helper.ToCategoryResponse e1 ≠ helper.ToCategoryResponse e2)
      ∧ (∀ e : domain.Employee,
        ((helper.ToEmployeeResponse e).EmployeeID = e.EmployeeID
            ∧ (helper.ToEmployeeResponse e).Name = e.Name
            ∧ (helper.ToEmployeeResponse e).Role = e.Role
            ∧ (helper.ToEmployeeResponse e).Email = e.Email
            ∧ (helper.ToEmployeeResponse e).Phone = e.Phone
            ∧ (helper.ToEmployeeResponse e).DateHired = e.DateHired)
          ∧ helper.ToEmployeeResponse
              { EmployeeID := (helper.ToEmployeeResponse e).EmployeeID
                Name := (helper.ToEmployeeResponse e).Name
                Role := (helper.ToEmployeeResponse e).Role
                Email := (helper.ToEmployeeResponse e).Email
                Phone := (helper.ToEmployeeResponse e).Phone
                DateHired := (helper.ToEmployeeResponse e).DateHired }
              = helper.ToEmployeeResponse e)
      ∧ (∀ e1 e2 : domain.Employee, e1 ≠ e2 →
          helper.ToEmployeeResponse e1 ≠ helper.ToEmployeeResponse e2)
      ∧ (∀ e : domain.Product,
        ((helper.ToProductResponse e).ProductID = e.ProductID
            ∧ (helper.ToProductResponse e).Name = e.Name
            ∧ (helper.ToProductResponse e).Description = e.Description
            ∧ (helper.ToProductResponse e).Price = e.Price
            ∧ (helper.ToProductResponse e).StockQty = e.StockQty
            ∧ (helper.ToProductResponse e).Category = e.Category
            ∧ (helper.ToProductResponse e).SKU = e.SKU
            ∧ (helper.ToProductResponse e).TaxRate = e.TaxRate)
          ∧ helper.ToProductResponse
              { ProductID := (helper.ToProductResponse e).ProductID
                Name := (helper.ToProductResponse e).Name
                Description := (helper.ToProductResponse e).Description
                Price := (helper.ToProductResponse e).Price
                StockQty := (helper.ToProductResponse e).StockQty
                Category := (helper.ToProductResponse e).Category
                SKU := (helper.ToProductResponse e).SKU
                TaxRate := (helper.ToProductResponse e).TaxRate }
              = helper.ToProductResponse e)
      ∧ (∀ e1 e2 : domain.Product, e1 ≠ e2 →
          helper.ToProductResponse e1 ≠ helper.ToProductResponse e2)
      ∧ (∀ e : domain.Customer,
        ((helper.ToCustomerResponse e).CustomerID = e.CustomerID
            ∧ (helper.ToCustomerResponse e).Name = e.Name
            ∧ (helper.ToCustomerResponse e).Email = e.Email
            ∧ (helper.ToCustomerResponse e).Phone = e.Phone
            ∧ (helper.ToCustomerResponse e).Address = e.Address
            ∧ (helper.ToCustomerResponse e).LoyaltyPts = e.LoyaltyPts)
          ∧ helper.ToCustomerResponse
              { CustomerID := (helper.ToCustomerResponse e).CustomerID
                Name := (helper.ToCustomerResponse e).Name
                Email := (helper.ToCustomerResponse e).Email
                Phone := (helper.ToCustomerResponse e).Phone
                Address := (helper.ToCustomerResponse e).Address
                LoyaltyPts := (helper.ToCustomerResponse e).LoyaltyPts }
              = helper.ToCustomerResponse e)
      ∧ (∀ e1 e2 : domain.Customer, e1 ≠ e2 →
          helper.ToCustomerResponse e1 ≠ helper.ToCustomerResponse e2) := by
  refine ⟨fun e => ⟨⟨rfl, rfl⟩, rfl⟩, ?_, fun e => ⟨⟨rfl, rfl, rfl, rfl, rfl, rfl⟩, rfl⟩, ?_,
    fun e => ⟨⟨rfl, rfl, rfl, rfl, rfl, rfl, rfl, rfl⟩, rfl⟩, ?_,
    fun e => ⟨⟨rfl, rfl, rfl, rfl, rfl, rfl⟩, rfl⟩, ?_⟩
  · intro e1 e2 hne heq
    apply hne
    cases e1
    cases e2
    simp only [helper.ToCategoryResponse, web.CategoryResponse.mk.injEq] at heq
    simp only [domain.Category.mk.injEq]
    exact heq
  · intro e1 e2 hne heq
    apply hne
    cases e1
    cases e2
    simp only [helper.ToEmployeeResponse, web.EmployeeResponse.mk.injEq] at heq
    simp only [domain.Employee.mk.injEq]
    exact heq
  · intro e1 e2 hne heq
    apply hne
    cases e1
    cases e2
    simp only [helper.ToProductResponse, web.ProductResponse.mk.injEq] at heq
    simp only [domain.Product.mk.injEq]
    exact heq
  · intro e1 e2 hne heq
    apply hne
    cases e1
    cases e2
    simp only [helper.ToCustomerResponse, web.CustomerResponse.mk.injEq] at heq
    simp only [domain.Customer.mk.injEq]
    exact heq

/-- Witness for C17: `laptop` and `gamingLaptop` differ in the declared field Description,
and so do their Responses. -/
theorem mappers_lossless_witness :
    laptop ≠ gamingLaptop
      ∧ helper.ToProductResponse laptop ≠ helper.ToProductResponse gamingLaptop :=
  ⟨by decide, mappers_lossless.2.2.2.2.2.1 laptop gamingLaptop (by decide)⟩

/-- C18: every operation makes at most two repository calls. `Create`, `FindById` and
`FindAll` make exactly one (Save, FindById, FindAll). `Update` and `Delete` make the
lookup alone, or the lookup followed by one Update, resp. one Delete. -/
theorem at_most_two_repository_calls {σ : Type} (svc : service.ProductServiceImpl σ)
    (ctx : Context) (w : Run σ) :
    (∀ request : web.ProductCreateRequest,
        ∃ q, (svc.Create ctx request w).2.calls = w.calls ++ [RepoCall.Save q])
      ∧ (∀ productId : String,
          (svc.FindById ctx productId w).2.calls = w.calls ++ [RepoCall.FindById productId])
      ∧ (svc.FindAll ctx w).2.calls = w.calls ++ [RepoCall.FindAll]
      ∧ (∀ request : web.ProductUpdateRequest,
          (svc.Update ctx request w).2.calls = w.calls ++ [RepoCall.FindById request.ProductID]
            ∨ ∃ q, (svc.Update ctx request w).2.calls
                = w.calls ++ [RepoCall.FindById request.ProductID, RepoCall.Update q])
      ∧ (∀ productId : String,
          (svc.Delete ctx productId w).2.calls = w.calls ++ [RepoCall.FindById productId]
            ∨ ∃ q, (svc.Delete ctx productId w).2.calls
                = w.calls ++ [RepoCall.FindById productId, RepoCall.Delete q]) := by
  refine ⟨?_, ?_, ?_, ?_, ?_⟩
  · intro request
    refine ⟨{ ProductID := ""
              Name := request.Name
              Description := request.Description
              Price := request.Price
              StockQty := request.StockQty
              Category := request.Category
              SKU := request.SKU
              TaxRate := request.TaxRate }, ?_⟩
    unfold service.ProductServiceImpl.Create
    simp only [service.ProductServiceImpl.callSave]
    split_ifs <;> rfl
  · intro productId
    unfold service.ProductServiceImpl.FindById
    simp only [service.ProductServiceImpl.callFindById]
    split_ifs <;> rfl
  · unfold service.ProductServiceImpl.FindAll
    simp only [service.ProductServiceImpl.callFindAll]
    split_ifs <;> rfl
  · intro request
    unfold service.ProductServiceImpl.Update
    simp only [service.ProductServiceImpl.callFindById, service.ProductServiceImpl.callUpdate]
    split_ifs
    · exact Or.inl rfl
    · exact Or.inl rfl
    · exact Or.inr ⟨_, by rw [List.append_assoc]; rfl⟩
    · exact Or.inr ⟨_, by rw [List.append_assoc]; rfl⟩
  · intro productId
    unfold service.ProductServiceImpl.Delete
    simp only [service.ProductServiceImpl.callFindById, service.ProductServiceImpl.callDelete]
    split_ifs
    · exact Or.inl rfl
    · exact Or.inl rfl
    · exact Or.inr ⟨_, by rw [List.append_assoc]; rfl⟩

/-- C19: in `Update`, `Delete` and `FindById` of the Product and the Employee controller,
when the body (for Update) parses, the id path parameter is not empty and the service
returns the error e, the reply is HTTP 404 with envelope code 404, "Not Found" and e's
message when e is a NotFoundError, and HTTP 500 with envelope code 500,
"Internal Server Error" and e's message otherwise; so it is a 404 exactly when e is a
NotFoundError. -/
theorem service_error_replies {σ τ β : Type} (pc : controller.ProductControllerImpl σ)
    (ec : controller.EmployeeControllerImpl τ) (e : GoError) :
    (∀ (c : fiber.Ctx web.ProductUpdateRequest) (s : ProductServed σ),
        (c.BodyParser web.ProductUpdateRequest.zero).2 = none →
        c.Params "productId" ≠ "" →
        (pc.ProductService.Update c.Context
            { (c.BodyParser web.ProductUpdateRequest.zero).1 with
              ProductID := c.Params "productId" } s.state).1.2 = some e →
        (pc.Update c s).1 = serviceErrorReply e)
      ∧ (∀ (c : fiber.Ctx β) (s : ProductServed σ),
        c.Params "productId" ≠ "" →
        (pc.ProductService.Delete c.Context (c.Params "productId") s.state).1 = some e →
        (pc.Delete c s).1 = serviceErrorReply e)
      ∧ (∀ (c : fiber.Ctx β) (s : ProductServed σ),
        c.Params "productId" ≠ "" →
        (pc.ProductService.FindById c.Context (c.Params "productId") s.state).1.2 = some e →
        (pc.FindById c s).1 = serviceErrorReply e)
      ∧ (∀ (c : fiber.Ctx web.EmployeeUpdateRequest) (s : EmployeeServed τ),
        (c.BodyParser web.EmployeeUpdateRequest.zero).2 = none →
        c.Params "employeeId" ≠ "" →
        (ec.EmployeeService.Update c.Context
            { (c.BodyParser web.EmployeeUpdateRequest.zero).1 with
              EmployeeID := c.Params "employeeId" } s.state).1.2 = some e →
        (ec.Update c s).1 = serviceErrorReply e)
      ∧ (∀ (c : fiber.Ctx β) (s : EmployeeServed τ),
        c.Params "employeeId" ≠ "" →
        (ec.EmployeeService.Delete c.Context (c.Params "employeeId") s.state).1 = some e →
        (ec.Delete c s).1 = serviceErrorReply e)
      ∧ (∀ (c : fiber.Ctx β) (s : EmployeeServed τ),
        c.Params "employeeId" ≠ "" →
        (ec.EmployeeService.FindById c.Context (c.Params "employeeId") s.state).1.2 = some e →
        (ec.FindById c s).1 = serviceErrorReply e)
      ∧ ((serviceErrorReply e).status = 404 ↔ exception.isNotFoundError (some e) = true)
      ∧ (exception.isNotFoundError (some e) = true → serviceErrorReply e = notFoundReply e)
      ∧ (exception.isNotFoundError (some e) = false →
          serviceErrorReply e = internalErrorReply e) := by
  refine ⟨?_, ?_, ?_, ?_, ?_, ?_, ?_, ?_, ?_⟩
  · intro c s hbody hid hsvc
    unfold controller.ProductControllerImpl.Update
    generalize hbp : c.BodyParser web.ProductUpdateRequest.zero = bp at hbody hsvc
    obtain ⟨parsed, perr⟩ := bp
    simp only at hbody hsvc
    subst hbody
    simp only [hid, if_false]
    generalize hcall : pc.ProductService.Update c.Context
      { parsed with ProductID := c.Params "productId" } s.state = called at hsvc
    obtain ⟨⟨resp, err⟩, st⟩ := called
    simp only at hsvc
    subst hsvc
    simp only [serviceErrorReply, notFoundReply, internalErrorReply, fiber.Ctx.StatusJSON,
      fiber.StatusNotFound, fiber.StatusInternalServerError]
    split_ifs <;> rfl
  · intro c s hid hsvc
    unfold controller.ProductControllerImpl.Delete
    simp only [hid, if_false]
    generalize hcall : pc.ProductService.Delete c.Context (c.Params "productId") s.state
      = called at hsvc
    obtain ⟨err, st⟩ := called
    simp only at hsvc
    subst hsvc
    simp only [serviceErrorReply, notFoundReply, internalErrorReply, fiber.Ctx.StatusJSON,
      fiber.StatusNotFound, fiber.StatusInternalServerError]
    split_ifs <;> rfl
  · intro c s hid hsvc
    unfold controller.ProductControllerImpl.FindById
    simp only [hid, if_false]
    generalize hcall : pc.ProductService.FindById c.Context (c.Params "productId") s.state
      = called at hsvc
    obtain ⟨⟨resp, err⟩, st⟩ := called
    simp only at hsvc
    subst hsvc
    simp only [serviceErrorReply, notFoundReply, internalErrorReply, fiber.Ctx.StatusJSON,
      fiber.StatusNotFound, fiber.StatusInternalServerError]
    split_ifs <;> rfl
  · intro c s hbody hid hsvc
    unfold controller.EmployeeControllerImpl.Update
    generalize hbp : c.BodyParser web.EmployeeUpdateRequest.zero = bp at hbody hsvc
    obtain ⟨parsed, perr⟩ := bp
    simp only at hbody hsvc
    subst hbody
    simp only [hid, if_false]
    generalize hcall : ec.EmployeeService.Update c.Context
      { parsed with EmployeeID := c.Params "employeeId" } s.state = called at hsvc
    obtain ⟨⟨resp, err⟩, st⟩ := called
    simp only at hsvc
    subst hsvc
    simp only [serviceErrorReply, notFoundReply, internalErrorReply, fiber.Ctx.StatusJSON,
      fiber.StatusNotFound, fiber.StatusInternalServerError]
    split_ifs <;> rfl
  · intro c s hid hsvc
    unfold controller.EmployeeControllerImpl.Delete
    simp only [hid, if_false]
    generalize hcall : ec.EmployeeService.Delete c.Context (c.Params "employeeId") s.state
      = called at hsvc
    obtain ⟨err, st⟩ := called
    simp only at hsvc
    subst hsvc
    simp only [serviceErrorReply, notFoundReply, internalErrorReply, fiber.Ctx.StatusJSON,
      fiber.StatusNotFound, fiber.StatusInternalServerError]
    split_ifs <;> rfl
  · intro c s hid hsvc
    unfold controller.EmployeeControllerImpl.FindById
    simp only [hid, if_false]
    generalize hcall : ec.EmployeeService.FindById c.Context (c.Params "employeeId") s.state
      = called at hsvc
    obtain ⟨⟨resp, err⟩, st⟩ := called
    simp only at hsvc
    subst hsvc
    simp only [serviceErrorReply, notFoundReply, internalErrorReply, fiber.Ctx.StatusJSON,
      fiber.StatusNotFound, fiber.StatusInternalServerError]
    split_ifs <;> rfl
  · unfold serviceErrorReply
    split_ifs with h
    · simp [notFoundReply, h]
    · simp [internalErrorReply, h]
  · intro h
    simp [serviceErrorReply, h]
  · intro h
    simp [serviceErrorReply, h]

/-- Witness for C19: the Product controller's Update answers a NotFoundError from the
service with the 404 envelope, its FindById answers `errors.New("db down")` with the 500
envelope, and the Employee controller's Delete answers a NotFoundError with the 404
envelope. -/
theorem service_error_replies_witness :
    ((controller.NewProductController
          (failingProductService (GoError.notFound "Product not found"))).Update
        (requestCtx laptopUpdate "productId" "1") Served.fresh).1
        = { status := 404
            body := { Code := 404, Status := "Not Found",
                      Data := web.Data.text "Product not found" } }
      ∧ ((controller.NewProductController
          (failingProductService (GoError.plain "db down"))).FindById
        (requestCtx () "productId" "1") Served.fresh).1
        = { status := 500
            body := { Code := 500, Status := "Internal Server Error",
                      Data := web.Data.text "db down" } }
      ∧ ((controller.NewEmployeeController
          (failingEmployeeService (GoError.notFound "Employee not found"))).Delete
        (requestCtx () "employeeId" "7") Served.fresh).1
        = { status := 404
            body := { Code := 404, Status := "Not Found",
                      Data := web.Data.text "Employee not found" } } :=
  ⟨(@service_error_replies Unit Unit Unit
      (controller.NewProductController
        (failingProductService (GoError.notFound "Product not found")))
      (controller.NewEmployeeController
        (failingEmployeeService (GoError.notFound "Product not found")))
      (GoError.notFound "Product not found")).1
      (requestCtx laptopUpdate "productId" "1") Served.fresh rfl (by decide) rfl,
   (@service_error_replies Unit Unit Unit
      (controller.NewProductController (failingProductService (GoError.plain "db down")))
      (controller.NewEmployeeController (failingEmployeeService (GoError.plain "db down")))
      (GoError.plain "db down")).2.2.1
      (requestCtx () "productId" "1") Served.fresh (by decide) rfl,
   (@service_error_replies Unit Unit Unit
      (controller.NewProductController
        (failingProductService (GoError.notFound "Employee not found")))
      (controller.NewEmployeeController
        (failingEmployeeService (GoError.notFound "Employee not found")))
      (GoError.notFound "Employee not found")).2.2.2.2.1
      (requestCtx () "employeeId" "7") Served.fresh (by decide) rfl⟩

/-- C20 (counterexample): a service whose Create and Update report a validation failure
is answered with HTTP 500 and envelope code 500, not with HTTP 400, by the Product and
by the Employee controller. -/
theorem validation_failure_not_400 :
    ((controller.NewProductController
          (failingProductService (GoError.validation "Name is required"))).Create
        (requestCtx emptyCreate "productId" "") Served.fresh).1.status = 500
      ∧ ((controller.NewProductController
          (failingProductService (GoError.validation "Name is required"))).Update
        (requestCtx emptyUpdate "productId" "1") Served.fresh).1.status = 500
      ∧ ((controller.NewEmployeeController
          (failingEmployeeService (GoError.validation "Name is required"))).Create
        (requestCtx web.EmployeeCreateRequest.zero "employeeId" "") Served.fresh).1.status = 500
      ∧ ((controller.NewEmployeeController
          (failingEmployeeService (GoError.validation "Name is required"))).Update
        (requestCtx web.EmployeeUpdateRequest.zero "employeeId" "1") Served.fresh).1.status
          = 500
      ∧ ((controller.NewProductController
          (failingProductService (GoError.validation "Name is required"))).Create
        (requestCtx emptyCreate "productId" "") Served.fresh).1.status ≠ 400 := by
  decide

/-- C20 (amended): in the Product and Employee controllers, when the body parses (and, for
Update, the id path parameter is not empty) and the service's Create or Update reports
the validation failure e, the reply is HTTP 500 with envelope code 500,
"Internal Server Error" and e's message, as for any other error that is not a
NotFoundError. -/
theorem validation_failure_is_500 {σ τ : Type} (pc : controller.ProductControllerImpl σ)
    (ec : controller.EmployeeControllerImpl τ) (e : GoError)
    (hval : isValidationError (some e) = true) :
    (∀ (c : fiber.Ctx web.ProductCreateRequest) (s : ProductServed σ),
        (c.BodyParser web.ProductCreateRequest.zero).2 = none →
        (pc.ProductService.Create c.Context (c.BodyParser web.ProductCreateRequest.zero).1
            s.state).1.2 = some e →
        (pc.Create c s).1 = internalErrorReply e)
      ∧ (∀ (c : fiber.Ctx web.ProductUpdateRequest) (s : ProductServed σ),
        (c.BodyParser web.ProductUpdateRequest.zero).2 = none →
        c.Params "productId" ≠ "" →
        (pc.ProductService.Update c.Context
            { (c.BodyParser web.ProductUpdateRequest.zero).1 with
              ProductID := c.Params "productId" } s.state).1.2 = some e →
        (pc.Update c s).1 = internalErrorReply e)
      ∧ (∀ (c : fiber.Ctx web.EmployeeCreateRequest) (s : EmployeeServed τ),
        (c.BodyParser web.EmployeeCreateRequest.zero).2 = none →
        (ec.EmployeeService.Create c.Context (c.BodyParser web.EmployeeCreateRequest.zero).1
            s.state).1.2 = some e →
        (ec.Create c s).1 = internalErrorReply e)
      ∧ (∀ (c : fiber.Ctx web.EmployeeUpdateRequest) (s : EmployeeServed τ),
        (c.BodyParser web.EmployeeUpdateRequest.zero).2 = none →
        c.Params "employeeId" ≠ "" →
        (ec.EmployeeService.Update c.Context
            { (c.BodyParser web.EmployeeUpdateRequest.zero).1 with
              EmployeeID := c.Params "employeeId" } s.state).1.2 = some e →
        (ec.Update c s).1 = internalErrorReply e)
      ∧ (internalErrorReply e).status = 500
      ∧ (internalErrorReply e).body.Code = 500 := by
  have hnf : exception.isNotFoundError (some e) = false := by
    cases e <;> simp_all [isValidationError, exception.isNotFoundError]
  refine ⟨?_, ?_, ?_, ?_, rfl, rfl⟩
  · intro c s hbody hsvc
    unfold controller.ProductControllerImpl.Create
    generalize hbp : c.BodyParser web.ProductCreateRequest.zero = bp at hbody hsvc
    obtain ⟨parsed, perr⟩ := bp
    simp only at hbody hsvc
    subst hbody
    simp only
    generalize hcall : pc.ProductService.Create c.Context parsed s.state = called at hsvc
    obtain ⟨⟨resp, err⟩, st⟩ := called
    simp only at hsvc
    subst hsvc
    rfl
  · intro c s hbody hid hsvc
    unfold controller.ProductControllerImpl.Update
    generalize hbp : c.BodyParser web.ProductUpdateRequest.zero = bp at hbody hsvc
    obtain ⟨parsed, perr⟩ := bp
    simp only at hbody hsvc
    subst hbody
    simp only [hid, if_false]
    generalize hcall : pc.ProductService.Update c.Context
      { parsed with ProductID := c.Params "productId" } s.state = called at hsvc
    obtain ⟨⟨resp, err⟩, st⟩ := called
    simp only at hsvc
    subst hsvc
    simp only [hnf]
    rfl
  · intro c s hbody hsvc
    unfold controller.EmployeeControllerImpl.Create
    generalize hbp : c.BodyParser web.EmployeeCreateRequest.zero = bp at hbody hsvc
    obtain ⟨parsed, perr⟩ := bp
    simp only at hbody hsvc
    subst hbody
    simp only
    generalize hcall : ec.EmployeeService.Create c.Context parsed s.state = called at hsvc
    obtain ⟨⟨resp, err⟩, st⟩ := called
    simp only at hsvc
    subst hsvc
    rfl
  · intro c s hbody hid hsvc
    unfold controller.EmployeeControllerImpl.Update
    generalize hbp : c.BodyParser web.EmployeeUpdateRequest.zero = bp at hbody hsvc
    obtain ⟨parsed, perr⟩ := bp
    simp only at hbody hsvc
    subst hbody
    simp only [hid, if_false]
    generalize hcall : ec.EmployeeService.Update c.Context
      { parsed with EmployeeID := c.Params "employeeId" } s.state = called at hsvc
    obtain ⟨⟨resp, err⟩, st⟩ := called
    simp only at hsvc
    subst hsvc
    simp only [hnf]
    rfl

/-- Witness for C20 (amended): the Product controller's Create on a service that reports
the validation failure "Name is required". -/
theorem validation_failure_is_500_witness :
    isValidationError (some (GoError.validation "Name is required")) = true
      ∧ ((controller.NewProductController
          (failingProductService (GoError.validation "Name is required"))).Create
        (requestCtx emptyCreate "productId" "") Served.fresh).1
        = { status := 500
            body := { Code := 500, Status := "Internal Server Error",
                      Data := web.Data.text "Name is required" } } :=
  ⟨rfl,
   (validation_failure_is_500
      (controller.NewProductController
        (failingProductService (GoError.validation "Name is required")))
      (controller.NewEmployeeController
        (failingEmployeeService (GoError.validation "Name is required")))
      (GoError.validation "Name is required") rfl).1
      (requestCtx emptyCreate "productId" "") Served.fresh rfl rfl⟩

/-- C21: when the body parses and the service's Create returns the Response r without
error, `Create` of the Product and of the Employee controller replies HTTP 201 with
envelope code 201, status "Created" and data r, unchanged. For the Response of the
scenario (ProductID "1", Name "Product A", Price 1000) the data has Description "",
StockQty 0, Category "", SKU "" and TaxRate 0. -/
theorem create_replies_created {σ τ : Type} (pc : controller.ProductControllerImpl σ)
    (ec : controller.EmployeeControllerImpl τ) :
    (∀ (c : fiber.Ctx web.ProductCreateRequest) (s : ProductServed σ) (r : web.ProductResponse),
        (c.BodyParser web.ProductCreateRequest.zero).2 = none →
        (pc.ProductService.Create c.Context (c.BodyParser web.ProductCreateRequest.zero).1
            s.state).1 = (r, none) →
        (pc.Create c s).1
          = { status := 201
              body := { Code := 201, Status := "Created", Data := web.Data.product r } })
      ∧ (∀ (c : fiber.Ctx web.EmployeeCreateRequest) (s : EmployeeServed τ)
          (r : web.EmployeeResponse),
        (c.BodyParser web.EmployeeCreateRequest.zero).2 = none →
        (ec.EmployeeService.Create c.Context (c.BodyParser web.EmployeeCreateRequest.zero).1
            s.state).1 = (r, none) →
        (ec.Create c s).1
          = { status := 201
              body := { Code := 201, Status := "Created", Data := web.Data.employee r } })
      ∧ ((controller.NewProductController (okProductService productA)).Create
            (requestCtx productACreate "" "") Served.fresh).1
          = { status := 201
              body := { Code := 201, Status := "Created"
                        Data := web.Data.product
                          { ProductID := "1", Name := "Product A", Description := ""
                            Price := ⟨4652007308841189376⟩, StockQty := 0, Category := ""
                            SKU := "", TaxRate := ⟨0⟩ } } } := by
  refine ⟨?_, ?_, by decide⟩
  · intro c s r hbody hsvc
    unfold controller.ProductControllerImpl.Create
    generalize hbp : c.BodyParser web.ProductCreateRequest.zero = bp at hbody hsvc
    obtain ⟨parsed, perr⟩ := bp
    simp only at hbody hsvc
    subst hbody
    simp only [hsvc]
    rfl
  · intro c s r hbody hsvc
    unfold controller.EmployeeControllerImpl.Create
    generalize hbp : c.BodyParser web.EmployeeCreateRequest.zero = bp at hbody hsvc
    obtain ⟨parsed, perr⟩ := bp
    simp only at hbody hsvc
    subst hbody
    simp only [hsvc]
    rfl

/-- Witness for C21: the Employee controller's Create on a service double that succeeds
with the Response of "John Doe". -/
theorem create_replies_created_witness :
    ((controller.NewEmployeeController (okEmployeeService johnDoe)).Create
        (requestCtx web.EmployeeCreateRequest.zero "" "") Served.fresh).1
      = { status := 201
          body := { Code := 201, Status := "Created", Data := web.Data.employee johnDoe } } :=
  (create_replies_created (controller.NewProductController (okProductService productA))
      (controller.NewEmployeeController (okEmployeeService johnDoe))).2.1
    (requestCtx web.EmployeeCreateRequest.zero "" "") Served.fresh johnDoe rfl rfl

/-- C22: in `Update`, `FindById` and `FindAll` of the Product and the Employee controller,
when the request reaches the service and the service succeeds with the value v, the
reply is HTTP 200 with envelope code 200, status "OK" and data v, unchanged. -/
theorem success_replies_ok {σ τ β : Type} (pc : controller.ProductControllerImpl σ)
    (ec : controller.EmployeeControllerImpl τ) :
    (∀ (c : fiber.Ctx web.ProductUpdateRequest) (s : ProductServed σ) (v : web.ProductResponse),
        (c.BodyParser web.ProductUpdateRequest.zero).2 = none →
        c.Params "productId" ≠ "" →
        (pc.ProductService.Update c.Context
            { (c.BodyParser web.ProductUpdateRequest.zero).1 with
              ProductID := c.Params "productId" } s.state).1 = (v, none) →
        (pc.Update c s).1
          = { status := 200, body := { Code := 200, Status := "OK", Data := web.Data.product v } })
      ∧ (∀ (c : fiber.Ctx β) (s : ProductServed σ) (v : web.ProductResponse),
        c.Params "productId" ≠ "" →
        (pc.ProductService.FindById c.Context (c.Params "productId") s.state).1 = (v, none) →
        (pc.FindById c s).1
          = { status := 200, body := { Code := 200, Status := "OK", Data := web.Data.product v } })
      ∧ (∀ (c : fiber.Ctx β) (s : ProductServed σ) (vs : Slice web.ProductResponse),
        (pc.ProductService.FindAll c.Context s.state).1 = (vs, none) →
        (pc.FindAll c s).1
          = { status := 200, body := { Code := 200, Status := "OK", Data := web.Data.products vs } })
      ∧ (∀ (c : fiber.Ctx web.EmployeeUpdateRequest) (s : EmployeeServed τ) (v : web.EmployeeResponse),
        (c.BodyParser web.EmployeeUpdateRequest.zero).2 = none →
        c.Params "employeeId" ≠ "" →
        (ec.EmployeeService.Update c.Context
            { (c.BodyParser web.EmployeeUpdateRequest.zero).1 with
              EmployeeID := c.Params "employeeId" } s.state).1 = (v, none) →
        (ec.Update c s).1
          = { status := 200, body := { Code := 200, Status := "OK", Data := web.Data.employee v } })
      ∧ (∀ (c : fiber.Ctx β) (s : EmployeeServed τ) (v : web.EmployeeResponse),
        c.Params "employeeId" ≠ "" →
        (ec.EmployeeService.FindById c.Context (c.Params "employeeId") s.state).1 = (v, none) →
        (ec.FindById c s).1
          = { status := 200, body := { Code := 200, Status := "OK", Data := web.Data.employee v } })
      ∧ (∀ (c : fiber.Ctx β) (s : EmployeeServed τ) (vs : Slice web.EmployeeResponse),
        (ec.EmployeeService.FindAll c.Context s.state).1 = (vs, none) →
        (ec.FindAll c s).1
          = { status := 200, body := { Code := 200, Status := "OK", Data := web.Data.employees vs } }) := by
  refine ⟨?_, ?_, ?_, ?_, ?_, ?_⟩
  · intro c s v hbody hid hsvc
    unfold controller.ProductControllerImpl.Update
    generalize hbp : c.BodyParser web.ProductUpdateRequest.zero = bp at hbody hsvc
    obtain ⟨parsed, perr⟩ := bp
    simp only at hbody hsvc
    subst hbody
    simp only [hid, if_false, hsvc]
    rfl
  · intro c s v hid hsvc
    unfold controller.ProductControllerImpl.FindById
    simp only [hid, if_false, hsvc]
    rfl
  · intro c s vs hsvc
    unfold controller.ProductControllerImpl.FindAll
    simp only [hsvc]
    rfl
  · intro c s v hbody hid hsvc
    unfold controller.EmployeeControllerImpl.Update
    generalize hbp : c.BodyParser web.EmployeeUpdateRequest.zero = bp at hbody hsvc
    obtain ⟨parsed, perr⟩ := bp
    simp only at hbody hsvc
    subst hbody
    simp only [hid, if_false, hsvc]
    rfl
  · intro c s v hid hsvc
    unfold controller.EmployeeControllerImpl.FindById
    simp only [hid, if_false, hsvc]
    rfl
  · intro c s vs hsvc
    unfold controller.EmployeeControllerImpl.FindAll
    simp only [hsvc]
    rfl

/-- Witness for C22: PUT /api/employees/1 with a parseable body on a service double whose
Update succeeds with the Response of "John Doe", and GET /api/products/1. -/
theorem success_replies_ok_witness :
    ((controller.NewEmployeeController (okEmployeeService johnDoe)).Update
        (requestCtx web.EmployeeUpdateRequest.zero "employeeId" "1") Served.fresh).1
      = { status := 200, body := { Code := 200, Status := "OK", Data := web.Data.employee johnDoe } }
      ∧ ((controller.NewProductController (okProductService productA)).FindById
        (requestCtx () "productId" "1") Served.fresh).1
      = { status := 200, body := { Code := 200, Status := "OK", Data := web.Data.product productA } } :=
  ⟨(@success_replies_ok Unit Unit Unit
      (controller.NewProductController (okProductService productA))
      (controller.NewEmployeeController (okEmployeeService johnDoe))).2.2.2.1
      (requestCtx web.EmployeeUpdateRequest.zero "employeeId" "1") Served.fresh johnDoe rfl
      (by decide) rfl,
   (@success_replies_ok Unit Unit Unit
      (controller.NewProductController (okProductService productA))
      (controller.NewEmployeeController (okEmployeeService johnDoe))).2.1
      (requestCtx () "productId" "1") Served.fresh productA (by decide) rfl⟩

/-- C23: when the id path parameter is not empty and the service's Delete succeeds,
`Delete` of the Product and of the Employee controller replies HTTP 200 with envelope
code 200, status "Deleted Successfully" and no data value set. -/
theorem delete_replies_deleted {σ τ β : Type} (pc : controller.ProductControllerImpl σ)
    (ec : controller.EmployeeControllerImpl τ) :
    (∀ (c : fiber.Ctx β) (s : ProductServed σ),
        c.Params "productId" ≠ "" →
        (pc.ProductService.Delete c.Context (c.Params "productId") s.state).1 = none →
        (pc.Delete c s).1
          = { status := 200
              body := { Code := 200, Status := "Deleted Successfully", Data := web.Data.absent } })
      ∧ (∀ (c : fiber.Ctx β) (s : EmployeeServed τ),
        c.Params "employeeId" ≠ "" →
        (ec.EmployeeService.Delete c.Context (c.Params "employeeId") s.state).1 = none →
        (ec.Delete c s).1
          = { status := 200
              body := { Code := 200, Status := "Deleted Successfully", Data := web.Data.absent } }) := by
  refine ⟨?_, ?_⟩
  · intro c s hid hsvc
    unfold controller.ProductControllerImpl.Delete
    simp only [hid, if_false, hsvc]
    rfl
  · intro c s hid hsvc
    unfold controller.EmployeeControllerImpl.Delete
    simp only [hid, if_false, hsvc]
    rfl

/-- Witness for C23: DELETE /api/products/1 and DELETE /api/employees/7 on service doubles
whose Delete succeeds. -/
theorem delete_replies_deleted_witness :
    ((controller.NewProductController (okProductService productA)).Delete
        (requestCtx () "productId" "1") Served.fresh).1
      = { status := 200
          body := { Code := 200, Status := "Deleted Successfully", Data := web.Data.absent } }
      ∧ ((controller.NewEmployeeController (okEmployeeService johnDoe)).Delete
        (requestCtx () "employeeId" "7") Served.fresh).1
      = { status := 200
          body := { Code := 200, Status := "Deleted Successfully", Data := web.Data.absent } } :=
  ⟨(@delete_replies_deleted Unit Unit Unit
      (controller.NewProductController (okProductService productA))
      (controller.NewEmployeeController (okEmployeeService johnDoe))).1
      (requestCtx () "productId" "1") Served.fresh (by decide) rfl,
   (@delete_replies_deleted Unit Unit Unit
      (controller.NewProductController (okProductService productA))
      (controller.NewEmployeeController (okEmployeeService johnDoe))).2
      (requestCtx () "employeeId" "7") Served.fresh (by decide) rfl⟩

/-- C24: in the Product and the Employee controller, a body that fails to parse (Create,
Update) is answered with HTTP 400 and envelope status "Bad Request"; an empty id path
parameter (Update with a parseable body, Delete, FindById) is answered with HTTP 400 and
envelope status "Invalid Product ID", resp. "Invalid Employee ID". In each case the
service state and the log of service calls are returned untouched: no service method is
invoked. -/
theorem bad_request_before_service {σ τ β : Type} (pc : controller.ProductControllerImpl σ)
    (ec : controller.EmployeeControllerImpl τ) :
    (∀ (c : fiber.Ctx web.ProductCreateRequest) (s : ProductServed σ) (err : GoError),
        (c.BodyParser web.ProductCreateRequest.zero).2 = some err →
        pc.Create c s
          = ({ status := 400
               body := { Code := 400, Status := "Bad Request", Data := web.Data.text err.Error } },
             s))
      ∧ (∀ (c : fiber.Ctx web.ProductUpdateRequest) (s : ProductServed σ) (err : GoError),
        (c.BodyParser web.ProductUpdateRequest.zero).2 = some err →
        pc.Update c s
          = ({ status := 400
               body := { Code := 400, Status := "Bad Request", Data := web.Data.text err.Error } },
             s))
      ∧ (∀ (c : fiber.Ctx web.ProductUpdateRequest) (s : ProductServed σ),
        (c.BodyParser web.ProductUpdateRequest.zero).2 = none →
        c.Params "productId" = "" →
        pc.Update c s
          = ({ status := 400
               body := { Code := 400, Status := "Invalid Product ID"
                         Data := web.Data.text "Product ID tidak boleh kosong" } },
             s))
      ∧ (∀ (c : fiber.Ctx β) (s : ProductServed σ),
        c.Params "productId" = "" →
        pc.Delete c s
          = ({ status := 400
               body := { Code := 400, Status := "Invalid Product ID"
                         Data := web.Data.text "Product ID tidak boleh kosong" } },
             s))
      ∧ (∀ (c : fiber.Ctx β) (s : ProductServed σ),
        c.Params "productId" = "" →
        pc.FindById c s
          = ({ status := 400
               body := { Code := 400, Status := "Invalid Product ID"
                         Data := web.Data.text "Product ID tidak boleh kosong" } },
             s))
      ∧ (∀ (c : fiber.Ctx web.EmployeeCreateRequest) (s : EmployeeServed τ) (err : GoError),
        (c.BodyParser web.EmployeeCreateRequest.zero).2 = some err →
        ec.Create c s
          = ({ status := 400
               body := { Code := 400, Status := "Bad Request", Data := web.Data.text err.Error } },
             s))
      ∧ (∀ (c : fiber.Ctx web.EmployeeUpdateRequest) (s : EmployeeServed τ) (err : GoError),
        (c.BodyParser web.EmployeeUpdateRequest.zero).2 = some err →
        ec.Update c s
          = ({ status := 400
               body := { Code := 400, Status := "Bad Request", Data := web.Data.text err.Error } },
             s))
      ∧ (∀ (c : fiber.Ctx web.EmployeeUpdateRequest) (s : EmployeeServed τ),
        (c.BodyParser web.EmployeeUpdateRequest.zero).2 = none →
        c.Params "employeeId" = "" →
        ec.Update c s
          = ({ status := 400
               body := { Code := 400, Status := "Invalid Employee ID"
                         Data := web.Data.text "Employee ID tidak boleh kosong" } },
             s))
      ∧ (∀ (c : fiber.Ctx β) (s : EmployeeServed τ),
        c.Params "employeeId" = "" →
        ec.Delete c s
          = ({ status := 400
               body := { Code := 400, Status := "Invalid Employee ID"
                         Data := web.Data.text "Employee ID tidak boleh kosong" } },
             s))
      ∧ (∀ (c : fiber.Ctx β) (s : EmployeeServed τ),
        c.Params "employeeId" = "" →
        ec.FindById c s
          = ({ status := 400
               body := { Code := 400, Status := "Invalid Employee ID"
                         Data := web.Data.text "Employee ID tidak boleh kosong" } },
             s)) := by
  refine ⟨?_, ?_, ?_, ?_, ?_, ?_, ?_, ?_, ?_, ?_⟩
  · intro c s err hbody
    unfold controller.ProductControllerImpl.Create
    generalize hbp : c.BodyParser web.ProductCreateRequest.zero = bp at hbody
    obtain ⟨parsed, perr⟩ := bp
    simp only at hbody
    subst hbody
    rfl
  · intro c s err hbody
    unfold controller.ProductControllerImpl.Update
    generalize hbp : c.BodyParser web.ProductUpdateRequest.zero = bp at hbody
    obtain ⟨parsed, perr⟩ := bp
    simp only at hbody
    subst hbody
    rfl
  · intro c s hbody hid
    unfold controller.ProductControllerImpl.Update
    generalize hbp : c.BodyParser web.ProductUpdateRequest.zero = bp at hbody
    obtain ⟨parsed, perr⟩ := bp
    simp only at hbody
    subst hbody
    simp only [hid, if_true]
    rfl
  · intro c s hid
    unfold controller.ProductControllerImpl.Delete
    simp only [hid, if_true]
    rfl
  · intro c s hid
    unfold controller.ProductControllerImpl.FindById
    simp only [hid, if_true]
    rfl
  · intro c s err hbody
    unfold controller.EmployeeControllerImpl.Create
    generalize hbp : c.BodyParser web.EmployeeCreateRequest.zero = bp at hbody
    obtain ⟨parsed, perr⟩ := bp
    simp only at hbody
    subst hbody
    rfl
  · intro c s err hbody
    unfold controller.EmployeeControllerImpl.Update
    generalize hbp : c.BodyParser web.EmployeeUpdateRequest.zero = bp at hbody
    obtain ⟨parsed, perr⟩ := bp
    simp only at hbody
    subst hbody
    rfl
  · intro c s hbody hid
    unfold controller.EmployeeControllerImpl.Update
    generalize hbp : c.BodyParser web.EmployeeUpdateRequest.zero = bp at hbody
    obtain ⟨parsed, perr⟩ := bp
    simp only at hbody
    subst hbody
    simp only [hid, if_true]
    rfl
  · intro c s hid
    unfold controller.EmployeeControllerImpl.Delete
    simp only [hid, if_true]
    rfl
  · intro c s hid
    unfold controller.EmployeeControllerImpl.FindById
    simp only [hid, if_true]
    rfl

/-- Witness for C24: a POST to the Product controller whose body does not decode, and a
GET on the Employee controller with no id bound; the service log stays empty. -/
theorem bad_request_before_service_witness :
    ((controller.NewProductController (okProductService productA)).Create
        (badBodyCtx (GoError.plain "unexpected end of JSON input") "" "") Served.fresh).1
      = { status := 400
          body := { Code := 400, Status := "Bad Request"
                    Data := web.Data.text "unexpected end of JSON input" } }
      ∧ ((controller.NewProductController (okProductService productA)).Create
        (badBodyCtx (GoError.plain "unexpected end of JSON input") "" "") Served.fresh).2.calls
      = []
      ∧ ((controller.NewEmployeeController (okEmployeeService johnDoe)).FindById
        (requestCtx () "id" "7") Served.fresh).1.body.Status = "Invalid Employee ID"
      ∧ ((controller.NewEmployeeController (okEmployeeService johnDoe)).FindById
        (requestCtx () "id" "7") Served.fresh).2.calls = [] :=
  ⟨congrArg Prod.fst ((@bad_request_before_service Unit Unit Unit
      (controller.NewProductController (okProductService productA))
      (controller.NewEmployeeController (okEmployeeService johnDoe))).1
      (badBodyCtx (GoError.plain "unexpected end of JSON input") "" "") Served.fresh
      (GoError.plain "unexpected end of JSON input") rfl),
   congrArg (fun r => r.2.calls) ((@bad_request_before_service Unit Unit Unit
      (controller.NewProductController (okProductService productA))
      (controller.NewEmployeeController (okEmployeeService johnDoe))).1
      (badBodyCtx (GoError.plain "unexpected end of JSON input") "" "") Served.fresh
      (GoError.plain "unexpected end of JSON input") rfl),
   congrArg (fun r => r.1.body.Status) ((@bad_request_before_service Unit Unit Unit
      (controller.NewProductController (okProductService productA))
      (controller.NewEmployeeController (okEmployeeService johnDoe))).2.2.2.2.2.2.2.2.2
      (requestCtx () "id" "7") Served.fresh (by decide)),
   congrArg (fun r => r.2.calls) ((@bad_request_before_service Unit Unit Unit
      (controller.NewProductController (okProductService productA))
      (controller.NewEmployeeController (okEmployeeService johnDoe))).2.2.2.2.2.2.2.2.2
      (requestCtx () "id" "7") Served.fresh (by decide))⟩

/-- C26: whenever `Create`, `Update` or `FindById` returns a non-nil error the Response
returned with it is the zero Response, and whenever `FindAll` returns a non-nil error the
slice returned with it is nil. -/
theorem error_comes_with_zero_value {σ : Type} (svc : service.ProductServiceImpl σ)
    (ctx : Context) (w : Run σ) :
    (∀ request : web.ProductCreateRequest,
        (svc.Create ctx request w).1.2 ≠ none →
          (svc.Create ctx request w).1.1 = web.ProductResponse.zero)
      ∧ (∀ request : web.ProductUpdateRequest,
          (svc.Update ctx request w).1.2 ≠ none →
            (svc.Update ctx request w).1.1 = web.ProductResponse.zero)
      ∧ (∀ productId : String,
          (svc.FindById ctx productId w).1.2 ≠ none →
            (svc.FindById ctx productId w).1.1 = web.ProductResponse.zero)
      ∧ ((svc.FindAll ctx w).1.2 ≠ none → (svc.FindAll ctx w).1.1 = Slice.nil) := by
  refine ⟨?_, ?_, ?_, ?_⟩
  · intro request
    unfold service.ProductServiceImpl.Create
    simp only [service.ProductServiceImpl.callSave]
    split_ifs <;> simp
  · intro request
    unfold service.ProductServiceImpl.Update
    simp only [service.ProductServiceImpl.callFindById, service.ProductServiceImpl.callUpdate]
    split_ifs <;> simp
  · intro productId
    unfold service.ProductServiceImpl.FindById
    simp only [service.ProductServiceImpl.callFindById]
    split_ifs <;> simp
  · unfold service.ProductServiceImpl.FindAll
    simp only [service.ProductServiceImpl.callFindAll]
    split_ifs <;> simp

/-- Witness for C26: the doubles whose Save, resp. lookup, fails; the error comes with the
zero Response. -/
theorem error_comes_with_zero_value_witness :
    ((service.NewProductService brokenSaveRepository).Create ⟨0⟩ laptopCreate Run.fresh).1.2
        ≠ none
      ∧ ((service.NewProductService brokenSaveRepository).Create ⟨0⟩ laptopCreate Run.fresh).1.1
          = web.ProductResponse.zero
      ∧ ((service.NewProductService missingRepository).FindById ⟨0⟩ "2" Run.fresh).1.1
          = web.ProductResponse.zero :=
  ⟨by decide,
   (error_comes_with_zero_value (service.NewProductService brokenSaveRepository) ⟨0⟩
      Run.fresh).1 laptopCreate (by decide),
   (error_comes_with_zero_value (service.NewProductService missingRepository) ⟨0⟩
      Run.fresh).2.2.1 "2" (by decide)⟩

/-- C27: in `Update` of the Product and the Employee controller, for every body that
parses and every non-empty id path parameter, the service's Update is called exactly
once, with a request whose ID is the path parameter, whatever ID the body carried, and
whose other fields are the parsed ones. -/
theorem update_receives_path_id {σ τ : Type} (pc : controller.ProductControllerImpl σ)
    (ec : controller.EmployeeControllerImpl τ) :
    (∀ (c : fiber.Ctx web.ProductUpdateRequest) (s : ProductServed σ),
        (c.BodyParser web.ProductUpdateRequest.zero).2 = none →
        c.Params "productId" ≠ "" →
        ∃ q : web.ProductUpdateRequest,
          (pc.Update c s).2.calls = s.calls ++ [ServiceCall.Update q]
            ∧ (pc.Update c s).2.state = (pc.ProductService.Update c.Context q s.state).2
            ∧ q.ProductID = c.Params "productId" ∧ q.ProductID ≠ ""
            ∧ q.Name = (c.BodyParser web.ProductUpdateRequest.zero).1.Name
            ∧ q.Description = (c.BodyParser web.ProductUpdateRequest.zero).1.Description
            ∧ q.Price = (c.BodyParser web.ProductUpdateRequest.zero).1.Price
            ∧ q.StockQty = (c.BodyParser web.ProductUpdateRequest.zero).1.StockQty
            ∧ q.Category = (c.BodyParser web.ProductUpdateRequest.zero).1.Category
            ∧ q.SKU = (c.BodyParser web.ProductUpdateRequest.zero).1.SKU
            ∧ q.TaxRate = (c.BodyParser web.ProductUpdateRequest.zero).1.TaxRate)
      ∧ (∀ (c : fiber.Ctx web.EmployeeUpdateRequest) (s : EmployeeServed τ),
        (c.BodyParser web.EmployeeUpdateRequest.zero).2 = none →
        c.Params "employeeId" ≠ "" →
        ∃ q : web.EmployeeUpdateRequest,
          (ec.Update c s).2.calls = s.calls ++ [ServiceCall.Update q]
            ∧ (ec.Update c s).2.state = (ec.EmployeeService.Update c.Context q s.state).2
            ∧ q.EmployeeID = c.Params "employeeId" ∧ q.EmployeeID ≠ ""
            ∧ q.Name = (c.BodyParser web.EmployeeUpdateRequest.zero).1.Name
            ∧ q.Role = (c.BodyParser web.EmployeeUpdateRequest.zero).1.Role
            ∧ q.Email = (c.BodyParser web.EmployeeUpdateRequest.zero).1.Email
            ∧ q.Phone = (c.BodyParser web.EmployeeUpdateRequest.zero).1.Phone
            ∧ q.DateHired = (c.BodyParser web.EmployeeUpdateRequest.zero).1.DateHired) := by
  refine ⟨?_, ?_⟩
  · intro c s hbody hid
    refine ⟨{ (c.BodyParser web.ProductUpdateRequest.zero).1 with
              ProductID := c.Params "productId" }, ?_, ?_, rfl, hid, ?_⟩
    · unfold controller.ProductControllerImpl.Update
      generalize hbp : c.BodyParser web.ProductUpdateRequest.zero = bp at hbody
      obtain ⟨parsed, perr⟩ := bp
      simp only at hbody
      subst hbody
      simp only [hid, if_false]
      split <;> [split_ifs; skip] <;> rfl
    · unfold controller.ProductControllerImpl.Update
      generalize hbp : c.BodyParser web.ProductUpdateRequest.zero = bp at hbody
      obtain ⟨parsed, perr⟩ := bp
      simp only at hbody
      subst hbody
      simp only [hid, if_false]
      split <;> [split_ifs; skip] <;> rfl
    · exact ⟨rfl, rfl, rfl, rfl, rfl, rfl, rfl⟩
  · intro c s hbody hid
    refine ⟨{ (c.BodyParser web.EmployeeUpdateRequest.zero).1 with
              EmployeeID := c.Params "employeeId" }, ?_, ?_, rfl, hid, ?_⟩
    · unfold controller.EmployeeControllerImpl.Update
      generalize hbp : c.BodyParser web.EmployeeUpdateRequest.zero = bp at hbody
      obtain ⟨parsed, perr⟩ := bp
      simp only at hbody
      subst hbody
      simp only [hid, if_false]
      split <;> [split_ifs; skip] <;> rfl
    · unfold controller.EmployeeControllerImpl.Update
      generalize hbp : c.BodyParser web.EmployeeUpdateRequest.zero = bp at hbody
      obtain ⟨parsed, perr⟩ := bp
      simp only at hbody
      subst hbody
      simp only [hid, if_false]
      split <;> [split_ifs; skip] <;> rfl
    · exact ⟨rfl, rfl, rfl, rfl, rfl⟩

/-- Witness for C27: PUT /api/products/9 with the body of `laptopUpdate`, whose
product_id is "1": the service receives the id "9" and the parsed Name. -/
theorem update_receives_path_id_witness :
    ((requestCtx laptopUpdate "productId" "9").BodyParser web.ProductUpdateRequest.zero).2 = none
      ∧ (requestCtx laptopUpdate "productId" "9").Params "productId" ≠ ""
      ∧ ∃ q : web.ProductUpdateRequest,
          ((controller.NewProductController (okProductService productA)).Update
              (requestCtx laptopUpdate "productId" "9") Served.fresh).2.calls
            = [ServiceCall.Update q] ∧ q.ProductID = "9" ∧ q.Name = "Laptop" :=
  ⟨rfl, by decide,
   Exists.elim
    ((update_receives_path_id (controller.NewProductController (okProductService productA))
        (controller.NewEmployeeController (okEmployeeService johnDoe))).1
        (requestCtx laptopUpdate "productId" "9") Served.fresh rfl (by decide))
    (fun q h => ⟨q, h.1, h.2.2.1, h.2.2.2.2.1⟩)⟩

/-- C28: on every path of every action of the Product and the Employee controller, the
envelope's code equals the HTTP status of the reply, and it is one of 200, 201, 400, 404
and 500. -/
theorem envelope_code_is_status {σ τ β : Type} (pc : controller.ProductControllerImpl σ)
    (ec : controller.EmployeeControllerImpl τ) :
    (∀ (c : fiber.Ctx web.ProductCreateRequest) (s : ProductServed σ),
        (pc.Create c s).1.codeIsStatus)
      ∧ (∀ (c : fiber.Ctx web.ProductUpdateRequest) (s : ProductServed σ),
        (pc.Update c s).1.codeIsStatus)
      ∧ (∀ (c : fiber.Ctx β) (s : ProductServed σ), (pc.Delete c s).1.codeIsStatus)
      ∧ (∀ (c : fiber.Ctx β) (s : ProductServed σ), (pc.FindById c s).1.codeIsStatus)
      ∧ (∀ (c : fiber.Ctx β) (s : ProductServed σ), (pc.FindAll c s).1.codeIsStatus)
      ∧ (∀ (c : fiber.Ctx web.EmployeeCreateRequest) (s : EmployeeServed τ),
        (ec.Create c s).1.codeIsStatus)
      ∧ (∀ (c : fiber.Ctx web.EmployeeUpdateRequest) (s : EmployeeServed τ),
        (ec.Update c s).1.codeIsStatus)
      ∧ (∀ (c : fiber.Ctx β) (s : EmployeeServed τ), (ec.Delete c s).1.codeIsStatus)
      ∧ (∀ (c : fiber.Ctx β) (s : EmployeeServed τ), (ec.FindById c s).1.codeIsStatus)
      ∧ (∀ (c : fiber.Ctx β) (s : EmployeeServed τ), (ec.FindAll c s).1.codeIsStatus) := by
  refine ⟨?_, ?_, ?_, ?_, ?_, ?_, ?_, ?_, ?_, ?_⟩
  · intro c s
    unfold controller.ProductControllerImpl.Create
    dsimp only
    repeat' split
    all_goals simp [Reply.codeIsStatus, fiber.Ctx.StatusJSON, fiber.StatusOK,
      fiber.StatusCreated, fiber.StatusBadRequest, fiber.StatusNotFound,
      fiber.StatusInternalServerError]
  · intro c s
    unfold controller.ProductControllerImpl.Update
    dsimp only
    repeat' split
    all_goals simp [Reply.codeIsStatus, fiber.Ctx.StatusJSON, fiber.StatusOK,
      fiber.StatusCreated, fiber.StatusBadRequest, fiber.StatusNotFound,
      fiber.StatusInternalServerError]
  · intro c s
    unfold controller.ProductControllerImpl.Delete
    dsimp only
    repeat' split
    all_goals simp [Reply.codeIsStatus, fiber.Ctx.StatusJSON, fiber.StatusOK,
      fiber.StatusCreated, fiber.StatusBadRequest, fiber.StatusNotFound,
      fiber.StatusInternalServerError]
  · intro c s
    unfold controller.ProductControllerImpl.FindById
    dsimp only
    repeat' split
    all_goals simp [Reply.codeIsStatus, fiber.Ctx.StatusJSON, fiber.StatusOK,
      fiber.StatusCreated, fiber.StatusBadRequest, fiber.StatusNotFound,
      fiber.StatusInternalServerError]
  · intro c s
    unfold controller.ProductControllerImpl.FindAll
    dsimp only
    repeat' split
    all_goals simp [Reply.codeIsStatus, fiber.Ctx.StatusJSON, fiber.StatusOK,
      fiber.StatusCreated, fiber.StatusBadRequest, fiber.StatusNotFound,
      fiber.StatusInternalServerError]
  · intro c s
    unfold controller.EmployeeControllerImpl.Create
    dsimp only
    repeat' split
    all_goals simp [Reply.codeIsStatus, fiber.Ctx.StatusJSON, fiber.StatusOK,
      fiber.StatusCreated, fiber.StatusBadRequest, fiber.StatusNotFound,
      fiber.StatusInternalServerError]
  · intro c s
    unfold controller.EmployeeControllerImpl.Update
    dsimp only
    repeat' split
    all_goals simp [Reply.codeIsStatus, fiber.Ctx.StatusJSON, fiber.StatusOK,
      fiber.StatusCreated, fiber.StatusBadRequest, fiber.StatusNotFound,
      fiber.StatusInternalServerError]
  · intro c s
    unfold controller.EmployeeControllerImpl.Delete
    dsimp only
    repeat' split
    all_goals simp [Reply.codeIsStatus, fiber.Ctx.StatusJSON, fiber.StatusOK,
      fiber.StatusCreated, fiber.StatusBadRequest, fiber.StatusNotFound,
      fiber.StatusInternalServerError]
  · intro c s
    unfold controller.EmployeeControllerImpl.FindById
    dsimp only
    repeat' split
    all_goals simp [Reply.codeIsStatus, fiber.Ctx.StatusJSON, fiber.StatusOK,
      fiber.StatusCreated, fiber.StatusBadRequest, fiber.StatusNotFound,
      fiber.StatusInternalServerError]
  · intro c s
    unfold controller.EmployeeControllerImpl.FindAll
    dsimp only
    repeat' split
    all_goals simp [Reply.codeIsStatus, fiber.Ctx.StatusJSON, fiber.StatusOK,
      fiber.StatusCreated, fiber.StatusBadRequest, fiber.StatusNotFound,
      fiber.StatusInternalServerError]

/-- C25: for Customer, Employee and Product, every attribute with a row in the spec's
constraint table is a field of both the Create and the Update request type, every rule of
its row is declared in that field's `validate` tag on both types, and the Update request
type declares its ID field required. -/
theorem constraint_table_declared :
    (∀ e ∈ constrainedEntities, ∀ attr ∈ e.1,
        (∃ row ∈ constraintTable, row.1 = attr)
          ∧ web.hasField e.2.1 attr = true ∧ web.hasField e.2.2.1 attr = true)
      ∧ (∀ e ∈ constrainedEntities, ∀ attr ∈ e.1, ∀ row ∈ constraintTable,
          row.1 = attr → ∀ rule ∈ row.2,
            web.declares e.2.1 attr rule = true
              ∧ web.declares e.2.2.1 attr rule = true)
      ∧ (∀ e ∈ constrainedEntities, web.declares e.2.2.1 e.2.2.2 "required" = true)
      ∧ (∀ row ∈ constraintTable, ∃ e ∈ constrainedEntities, row.1 ∈ e.1) := by
  refine ⟨?_, ?_, ?_, ?_⟩ <;> decide

/-- Every registration of the product controller's FindById, Update and Delete binds the
parameter "productId", and every such registration of the employee controller binds
"employeeId". -/
theorem app.NewRouter_binds_id (r : Route) (hr : r ∈ app.NewRouter)
    (hact : r.action = ControllerAction.FindById ∨ r.action = ControllerAction.Update ∨ r.action = ControllerAction.Delete) :
    (r.controller = "productController" → fiber.paramName r.path = some "productId")
      ∧ (r.controller = "employeeController" → fiber.paramName r.path = some "employeeId") := by
  revert r
  decide

/-- C29: for every registration the router makes for the Product, resp. Employee,
controller's FindById, Update or Delete, the parameter the pattern binds is "productId",
resp. "employeeId", the name the controller reads; so for every non-empty id segment the
handler never answers "Invalid Product ID", resp. "Invalid Employee ID", and FindById and
Delete call the service with that segment. -/
theorem routed_id_is_read {σ τ β : Type} (pc : controller.ProductControllerImpl σ)
    (ec : controller.EmployeeControllerImpl τ) (r : Route) (hr : r ∈ app.NewRouter)
    (segment : String) (hseg : segment ≠ "") (ctx : Context) :
    (r.controller = "productController" →
        (r.action = ControllerAction.FindById →
          fiber.paramName r.path = some "productId"
            ∧ ∀ (parser : β → β × error) (s : ProductServed σ),
              (pc.FindById (fiber.routedCtx r.path segment parser ctx) s).1.body.Status
                  ≠ "Invalid Product ID"
                ∧ (pc.FindById (fiber.routedCtx r.path segment parser ctx) s).2.calls
                  = s.calls ++ [ServiceCall.FindById segment])
          ∧ (r.action = ControllerAction.Delete →
            fiber.paramName r.path = some "productId"
              ∧ ∀ (parser : β → β × error) (s : ProductServed σ),
                (pc.Delete (fiber.routedCtx r.path segment parser ctx) s).1.body.Status
                    ≠ "Invalid Product ID"
                  ∧ (pc.Delete (fiber.routedCtx r.path segment parser ctx) s).2.calls
                    = s.calls ++ [ServiceCall.Delete segment])
          ∧ (r.action = ControllerAction.Update →
            fiber.paramName r.path = some "productId"
              ∧ ∀ (parser : web.ProductUpdateRequest → web.ProductUpdateRequest × error)
                  (s : ProductServed σ),
                (pc.Update (fiber.routedCtx r.path segment parser ctx) s).1.body.Status
                  ≠ "Invalid Product ID"))
      ∧ (r.controller = "employeeController" →
        (r.action = ControllerAction.FindById →
          fiber.paramName r.path = some "employeeId"
            ∧ ∀ (parser : β → β × error) (s : EmployeeServed τ),
              (ec.FindById (fiber.routedCtx r.path segment parser ctx) s).1.body.Status
                  ≠ "Invalid Employee ID"
                ∧ (ec.FindById (fiber.routedCtx r.path segment parser ctx) s).2.calls
                  = s.calls ++ [ServiceCall.FindById segment])
          ∧ (r.action = ControllerAction.Delete →
            fiber.paramName r.path = some "employeeId"
              ∧ ∀ (parser : β → β × error) (s : EmployeeServed τ),
                (ec.Delete (fiber.routedCtx r.path segment parser ctx) s).1.body.Status
                    ≠ "Invalid Employee ID"
                  ∧ (ec.Delete (fiber.routedCtx r.path segment parser ctx) s).2.calls
                    = s.calls ++ [ServiceCall.Delete segment])
          ∧ (r.action = ControllerAction.Update →
            fiber.paramName r.path = some "employeeId"
              ∧ ∀ (parser : web.EmployeeUpdateRequest → web.EmployeeUpdateRequest × error)
                  (s : EmployeeServed τ),
                (ec.Update (fiber.routedCtx r.path segment parser ctx) s).1.body.Status
                  ≠ "Invalid Employee ID")) := by
  refine ⟨fun hc => ⟨fun ha => ?_, fun ha => ?_, fun ha => ?_⟩,
    fun hc => ⟨fun ha => ?_, fun ha => ?_, fun ha => ?_⟩⟩
  · have hname := (app.NewRouter_binds_id r hr (Or.inl ha)).1 hc
    refine ⟨hname, fun parser s => ?_⟩
    unfold controller.ProductControllerImpl.FindById
    simp only [fiber.routedCtx, hname, if_true, hseg, if_false]
    constructor
    · repeat' split
      all_goals simp [fiber.Ctx.StatusJSON]
    · repeat' split
      all_goals rfl
  · have hname := (app.NewRouter_binds_id r hr (Or.inr (Or.inr ha))).1 hc
    refine ⟨hname, fun parser s => ?_⟩
    unfold controller.ProductControllerImpl.Delete
    simp only [fiber.routedCtx, hname, if_true, hseg, if_false]
    constructor
    · repeat' split
      all_goals simp [fiber.Ctx.StatusJSON]
    · repeat' split
      all_goals rfl
  · have hname := (app.NewRouter_binds_id r hr (Or.inr (Or.inl ha))).1 hc
    refine ⟨hname, fun parser s => ?_⟩
    unfold controller.ProductControllerImpl.Update
    simp only [fiber.routedCtx, hname, if_true]
    repeat' split
    all_goals first | contradiction | simp [fiber.Ctx.StatusJSON]
  · have hname := (app.NewRouter_binds_id r hr (Or.inl ha)).2 hc
    refine ⟨hname, fun parser s => ?_⟩
    unfold controller.EmployeeControllerImpl.FindById
    simp only [fiber.routedCtx, hname, if_true, hseg, if_false]
    constructor
    · repeat' split
      all_goals simp [fiber.Ctx.StatusJSON]
    · repeat' split
      all_goals rfl
  · have hname := (app.NewRouter_binds_id r hr (Or.inr (Or.inr ha))).2 hc
    refine ⟨hname, fun parser s => ?_⟩
    unfold controller.EmployeeControllerImpl.Delete
    simp only [fiber.routedCtx, hname, if_true, hseg, if_false]
    constructor
    · repeat' split
      all_goals simp [fiber.Ctx.StatusJSON]
    · repeat' split
      all_goals rfl
  · have hname := (app.NewRouter_binds_id r hr (Or.inr (Or.inl ha))).2 hc
    refine ⟨hname, fun parser s => ?_⟩
    unfold controller.EmployeeControllerImpl.Update
    simp only [fiber.routedCtx, hname, if_true]
    repeat' split
    all_goals first | contradiction | simp [fiber.Ctx.StatusJSON]

/-- Witness for C29: GET /api/products/1 is routed to the product controller's FindById,
which calls the service with "1". -/
theorem routed_id_is_read_witness :
    productFindByIdRoute ∈ app.NewRouter
      ∧ fiber.paramName productFindByIdRoute.path = some "productId"
      ∧ ((controller.NewProductController (okProductService productA)).FindById
          (fiber.routedCtx productFindByIdRoute.path "1" noBody ⟨0⟩) Served.fresh).2.calls
        = Served.fresh.calls ++ [ServiceCall.FindById "1"] :=
  ⟨by decide,
   (((@routed_id_is_read Unit Unit Unit
      (controller.NewProductController (okProductService productA))
      (controller.NewEmployeeController (okEmployeeService johnDoe))
      productFindByIdRoute (by decide) "1" (by decide) ⟨0⟩).1 rfl).1 rfl).1,
   ((((@routed_id_is_read Unit Unit Unit
      (controller.NewProductController (okProductService productA))
      (controller.NewEmployeeController (okEmployeeService johnDoe))
      productFindByIdRoute (by decide) "1" (by decide) ⟨0⟩).1 rfl).1 rfl).2
      noBody Served.fresh).2⟩
